import Mathlib

/-!
Verification development for the MIFARE DESFire client core
(`client/src/mifare/desfirecore.c`).

The C code is shallowly embedded: byte buffers become `List Nat` (each
element kept below 256 where the code writes bytes), machine integers
become `Nat`/`Int` with explicit `% 2^32` where overflow matters, and the
card transport is an explicit oracle (a list of replies consumed in
order).  External pure crypto primitives (block ciphers, CMAC, session-key
derivation), which the specification places out of scope, are passed in as
function parameters.  A few small helpers of the repository live outside
the provided translation unit (headers, `desfiresecurechan.c`,
`desfire_crypto.c`); those are modelled from the specification and marked
as such in their doc comments.
-/

namespace Desfire

/-! ### Byte-buffer helpers -/

/-- All-zero buffer of length `n` (C `memset(.., 0, n)`). -/
def zeros (n : Nat) : List Nat := List.replicate n 0

/-- C `memcpy(&dst[off], src, src.length)`: overwrite `dst` at offset
`off` with `src`, keeping `dst`'s total length. -/
def storeBytes (dst : List Nat) (off : Nat) (src : List Nat) : List Nat :=
  dst.take off ++ (src.take (dst.length - off)) ++ dst.drop (off + src.length)

/-- Read `n` bytes starting at a zero-initialised buffer that holds the
bytes of `xs`: bytes past the end of `xs` read as `0`. -/
def padTake (xs : List Nat) (n : Nat) : List Nat :=
  xs.take n ++ zeros (n - xs.length)

/-- `rol(data, len)` from `commonutil.c`: rotate a byte buffer left by one
byte (first byte moves to the end). -/
def rol (xs : List Nat) : List Nat := xs.drop 1 ++ xs.take 1

/-- `bin_xor(a, b, len)`: byte-wise XOR of two buffers. -/
def binXor (a b : List Nat) : List Nat := List.zipWith (fun x y => x ^^^ y) a b

/-- `MemLeToUint2byte`: little-endian 16-bit read. -/
def MemLeToUint2byte (b0 b1 : Nat) : Nat := b0 + b1 * 256

/-- `MemLeToUint3byte`: little-endian 24-bit read. -/
def MemLeToUint3byte (b0 b1 b2 : Nat) : Nat := b0 + b1 * 256 + b2 * 65536

/-- `MemLeToUint4byte`: little-endian 32-bit read. -/
def MemLeToUint4byte (b0 b1 b2 b3 : Nat) : Nat :=
  b0 + b1 * 256 + b2 * 65536 + b3 * 16777216

/-- Byte `i` of a buffer, `0` when out of range (the C buffers used by the
claims are zero-initialised and long enough at every in-scope input). -/
def byteAt (xs : List Nat) (i : Nat) : Nat := xs.getD i 0

/-! ### Enumerations of the data model -/

/-- `DesfireCryptoAlgorythm` (sic) from `desfirecrypto.h`. -/
inductive DesfireCryptoAlgorythm where
  | T_DES
  | T_3DES
  | T_3K3DES
  | T_AES
deriving DecidableEq, Repr

export DesfireCryptoAlgorythm (T_DES T_3DES T_3K3DES T_AES)

/-- `desfire_get_key_length`: key length in bytes per algorithm. -/
def desfire_get_key_length : DesfireCryptoAlgorythm → Nat
  | T_DES => 8
  | T_3DES => 16
  | T_3K3DES => 24
  | T_AES => 16

/-- `desfire_get_key_block_length`: cipher block length per algorithm. -/
def desfire_get_key_block_length : DesfireCryptoAlgorythm → Nat
  | T_DES => 8
  | T_3DES => 8
  | T_3K3DES => 8
  | T_AES => 16

/-- `DesfireSecureChannel`: the secure-channel variant in effect. -/
inductive DesfireSecureChannel where
  | DACNone
  | DACd40
  | DACEV1
  | DACEV2
deriving DecidableEq, Repr

export DesfireSecureChannel (DACNone DACd40 DACEV1 DACEV2)

/-- `DesfireCommandSet`: outer framing variant. -/
inductive DesfireCommandSet where
  | DCCNative
  | DCCNativeISO
  | DCCISO
deriving DecidableEq, Repr

export DesfireCommandSet (DCCNative DCCNativeISO DCCISO)

/-- `DesfireCommunicationMode`. -/
inductive DesfireCommunicationMode where
  | DCMNone
  | DCMPlain
  | DCMMACed
  | DCMEncrypted
deriving DecidableEq, Repr

export DesfireCommunicationMode (DCMNone DCMPlain DCMMACed DCMEncrypted)

/-! ### Protocol constants

The numeric command/status codes come from `protocols.h`, which is not
part of the provided sources; the values are modelled from the spec
(§6 "Wire formats" and "Authentication sub-commands"). -/

def MFDES_S_OPERATION_OK : Nat := 0x00
def MFDES_S_NO_CHANGES : Nat := 0x0C
/-- Modelled from the spec: a dedicated "signature" success status distinct
from the other three success codes (`protocols.h` is not in the sources). -/
def MFDES_S_SIGNATURE : Nat := 0x90
def MFDES_S_ADDITIONAL_FRAME : Nat := 0xAF
def MFDES_ADDITIONAL_FRAME : Nat := 0xAF
def MFDES_AUTHENTICATE : Nat := 0x0A
def MFDES_AUTHENTICATE_ISO : Nat := 0x1A
def MFDES_AUTHENTICATE_AES : Nat := 0xAA
def MFDES_AUTHENTICATE_EV2F : Nat := 0x71
def MFDES_AUTHENTICATE_EV2NF : Nat := 0x77
/-- Modelled from the spec: the native ChangeKey command byte
(`protocols.h` is not in the sources). -/
def MFDES_CHANGE_KEY : Nat := 0xC4
/-- Modelled from the spec: the native SelectApplication command byte. -/
def MFDES_SELECT_APPLICATION : Nat := 0x5A

/-- Modelled from the spec: per-frame maximum of the native TX chaining
(`DESFIRE_TX_FRAME_MAX_LEN`, defined in `desfirecore.h` which is not in
the sources; the spec gives a typical value of 56). -/
def DESFIRE_TX_FRAME_MAX_LEN : Nat := 56

/-- `DESFIRE_MAX_KEY_SIZE` (24, the 3K3DES key length). -/
def DESFIRE_MAX_KEY_SIZE : Nat := 24

/-! ### Result codes (`pm3_cmd.h`, not in the sources).  Only
`PM3_SUCCESS = 0` matters for the claims; the error codes are the
negative values used by the client. -/

def PM3_SUCCESS : Int := 0
def PM3_EINVARG : Int := -2
def PM3_ETIMEOUT : Int := -4
def PM3_ECARDEXCHANGE : Int := -18
def PM3_EAPDU_FAIL : Int := -20

end Desfire

namespace Desfire

/-! ### File-settings codec (`DesfireFillFileSettings`) -/

/-- `FileSettingsS` (fields relevant to the decoder; `memset 0` defaults). -/
structure FileSettingsS where
  fileType : Nat := 0
  fileOption : Nat := 0
  fileCommMode : Nat := 0
  commMode : DesfireCommunicationMode := DCMNone
  additionalAccessRightsEn : Bool := false
  rawAccessRights : Nat := 0
  rAccess : Nat := 0
  wAccess : Nat := 0
  rwAccess : Nat := 0
  chAccess : Nat := 0
  fileSize : Nat := 0
  lowerLimit : Nat := 0
  upperLimit : Nat := 0
  value : Nat := 0
  limitedCredit : Nat := 0
  recordSize : Nat := 0
  maxRecordCount : Nat := 0
  curRecordCount : Nat := 0
  keyType : Nat := 0
  keyVersion : Nat := 0
  additionalAccessRightsLength : Nat := 0
  additionalAccessRights : List Nat := []
deriving DecidableEq, Repr

/-- Modelled from the spec: `DesfireFileCommModeToCommMode` (in
`desfiresecurechan.c`, not in the sources).  Bits 0–1 of the option byte
encode the communication mode: plain, MACed, or fully enciphered. -/
def DesfireFileCommModeToCommMode (fileCommMode : Nat) : DesfireCommunicationMode :=
  match fileCommMode &&& 0x03 with
  | 0x00 => DCMPlain
  | 0x01 => DCMMACed
  | 0x03 => DCMEncrypted
  | _ => DCMNone

/-- `DesfireDecodeFileAcessMode`: unpack the four 4-bit access-right
fields from the 2-byte little-endian access word.  Returns
`(r, w, rw, ch)`. -/
def DesfireDecodeFileAcessMode (mode0 mode1 : Nat) : Nat × Nat × Nat × Nat :=
  ((mode1 >>> 4) &&& 0x0f, mode1 &&& 0x0f, (mode0 >>> 4) &&& 0x0f, mode0 &&& 0x0f)

/-- `DesfireFillFileSettings`: decode the variable-layout file-settings
record.  A result of all zeros is returned for inputs shorter than 4
bytes (the C code leaves the `memset`-cleared struct untouched). -/
def DesfireFillFileSettings (data : List Nat) : FileSettingsS :=
  if data.length < 4 then {} else
  let fileType := byteAt data 0
  let fileOption := byteAt data 1
  let fileCommMode := fileOption &&& 0x03
  let acc := DesfireDecodeFileAcessMode (byteAt data 2) (byteAt data 3)
  let base : FileSettingsS :=
    { fileType := fileType
      fileOption := fileOption
      fileCommMode := fileCommMode
      commMode := DesfireFileCommModeToCommMode fileCommMode
      additionalAccessRightsEn := (fileOption &&& 0x80) ≠ 0
      rawAccessRights := MemLeToUint2byte (byteAt data 2) (byteAt data 3)
      rAccess := acc.1
      wAccess := acc.2.1
      rwAccess := acc.2.2.1
      chAccess := acc.2.2.2 }
  let (fs, reclen) :=
    if fileType = 0x00 ∨ fileType = 0x01 then
      ({ base with
          fileSize := MemLeToUint3byte (byteAt data 4) (byteAt data 5) (byteAt data 6) },
       4 + 3)
    else if fileType = 0x02 then
      ({ base with
          lowerLimit := MemLeToUint4byte (byteAt data 4) (byteAt data 5) (byteAt data 6) (byteAt data 7)
          upperLimit := MemLeToUint4byte (byteAt data 8) (byteAt data 9) (byteAt data 10) (byteAt data 11)
          value := MemLeToUint4byte (byteAt data 12) (byteAt data 13) (byteAt data 14) (byteAt data 15)
          limitedCredit := byteAt data 16 },
       4 + 13)
    else if fileType = 0x03 ∨ fileType = 0x04 then
      ({ base with
          recordSize := MemLeToUint3byte (byteAt data 4) (byteAt data 5) (byteAt data 6)
          maxRecordCount := MemLeToUint3byte (byteAt data 7) (byteAt data 8) (byteAt data 9)
          curRecordCount := MemLeToUint3byte (byteAt data 10) (byteAt data 11) (byteAt data 12) },
       4 + 9)
    else if fileType = 0x05 then
      ({ base with
          keyType := byteAt data 4
          keyVersion := byteAt data 5 },
       0)
    else (base, 0)
  if fs.additionalAccessRightsEn ∧ reclen > 0 ∧ data.length > reclen ∧
      data.length = reclen + (byteAt data reclen) * 2 then
    { fs with
        additionalAccessRightsLength := byteAt data reclen
        additionalAccessRights :=
          (List.range (byteAt data reclen)).map
            (fun i => MemLeToUint2byte (byteAt data (reclen + 1 + i * 2))
                                       (byteAt data (reclen + 2 + i * 2))) }
  else fs

/-- The concrete file-settings input of the spec's scenario 6. -/
def fileSettingsExample : List Nat :=
  [0x02, 0x03, 0xEE, 0xEE, 0x10, 0x00, 0x00, 0x00, 0x00, 0x00, 0x00, 0x00,
   0x10, 0x00, 0x00, 0x00, 0x00]

end Desfire

namespace Desfire

/-- C3 counterexample: the spec's concrete scenario input
`02 03 EE EE 10 00 00 00 00 00 00 00 10 00 00 00 00` does NOT decode to
`lower = 0, upper = 16`: the first LE32 body word (bytes 4–7, value 16)
lands in `lowerLimit` and the second (bytes 8–11, value 0) in
`upperLimit`, the opposite of what the claim states. -/
theorem C3_example_not_as_claimed :
    ¬((DesfireFillFileSettings fileSettingsExample).lowerLimit = 0 ∧
      (DesfireFillFileSettings fileSettingsExample).upperLimit = 16) := by
  decide

/-- C3 (amended): for every input of length ≥ 4, `DesfireFillFileSettings`
decodes the fixed prefix `[fileType, option, accessRights_LE16]`, and for
fileType 0x02 (Value) the body as
`lowerLE32 || upperLE32 || currentLE32 || limitedCreditFlags`; the
concrete input `02 03 EE EE 10 00 00 00 00 00 00 00 10 00 00 00 00`
decodes to type = Value, comm = Enciphered, access = 0xEEEE,
lower = 16, upper = 0, current = 16, limitedCredit = 0. -/
theorem C3_fileSettings_layout (data : List Nat) (h : 4 ≤ data.length) :
    ((DesfireFillFileSettings data).fileType = byteAt data 0 ∧
     (DesfireFillFileSettings data).fileOption = byteAt data 1 ∧
     (DesfireFillFileSettings data).rawAccessRights =
       MemLeToUint2byte (byteAt data 2) (byteAt data 3) ∧
     (byteAt data 0 = 0x02 →
       (DesfireFillFileSettings data).lowerLimit =
         MemLeToUint4byte (byteAt data 4) (byteAt data 5) (byteAt data 6) (byteAt data 7) ∧
       (DesfireFillFileSettings data).upperLimit =
         MemLeToUint4byte (byteAt data 8) (byteAt data 9) (byteAt data 10) (byteAt data 11) ∧
       (DesfireFillFileSettings data).value =
         MemLeToUint4byte (byteAt data 12) (byteAt data 13) (byteAt data 14) (byteAt data 15) ∧
       (DesfireFillFileSettings data).limitedCredit = byteAt data 16)) ∧
    DesfireFillFileSettings fileSettingsExample =
      { fileType := 0x02, fileOption := 0x03, fileCommMode := 0x03,
        commMode := DCMEncrypted, additionalAccessRightsEn := false,
        rawAccessRights := 0xEEEE, rAccess := 0x0E, wAccess := 0x0E,
        rwAccess := 0x0E, chAccess := 0x0E,
        lowerLimit := 16, upperLimit := 0, value := 16, limitedCredit := 0 } := by
  refine ⟨?_, by decide⟩
  unfold DesfireFillFileSettings
  have h4 : ¬ (data.length < 4) := by omega
  simp only [h4, if_false]
  split_ifs <;> simp_all <;> (intro h2 ; omega)

/-- Witness for C3: the amended layout theorem applied at the concrete
17-byte example input. -/
theorem C3_fileSettings_layout_witness :
    (DesfireFillFileSettings fileSettingsExample).fileType =
      byteAt fileSettingsExample 0 :=
  (C3_fileSettings_layout fileSettingsExample (by decide)).1.1

end Desfire

namespace Desfire

/-! ### Raw native transport (`DESFIRESendRaw`) -/

/-- Observable outcome of `DESFIRESendRaw`: the return code, the
response-code out parameter (`0xff` when never set), the `uint32`
`*result_len` value, and the bytes left in the caller's result buffer. -/
structure RawResult where
  res : Int
  respcode : Nat
  resultLen : Nat
  result : List Nat
deriving DecidableEq, Repr

/-- `DESFIRESendRaw`: post-process one raw transport exchange.  `tres` is
the transport's return code and `reply` the raw bytes it delivered
(status byte, data, two trailing bytes).  `*result_len -= 1 + 2` is an
unsigned 32-bit subtraction, so replies of total length 1 or 2 wrap; the
`memmove` is modelled as dropping the status byte and keeping
`resultLen` bytes (the zero-initialised C buffer reads as zeros past the
transport data, and no in-scope input reads past it). -/
def DESFIRESendRaw (tres : Int) (reply : List Nat) : RawResult :=
  if tres ≠ PM3_SUCCESS then ⟨tres, 0xff, 0, []⟩
  else match reply with
  | [] => ⟨PM3_SUCCESS, 0xff, 0, []⟩
  | rcode :: rest =>
    let rlen := (reply.length + 2 ^ 32 - 3) % 2 ^ 32
    let out := rest.take rlen
    if rcode ≠ MFDES_S_OPERATION_OK ∧ rcode ≠ MFDES_S_SIGNATURE ∧
       rcode ≠ MFDES_ADDITIONAL_FRAME ∧ rcode ≠ MFDES_S_NO_CHANGES then
      ⟨PM3_EAPDU_FAIL, rcode, rlen, out⟩
    else ⟨PM3_SUCCESS, rcode, rlen, out⟩

/-- The `uint32` length wrap of `DESFIRESendRaw` computed at a reply of
physical length (at least 3 bytes, below `2^32`). -/
theorem sendRaw_len_eq (n : Nat) (h3 : 3 ≤ n + 1) (hlen : n + 1 < 2 ^ 32) :
    (n + 1 + 2 ^ 32 - 3) % 2 ^ 32 = n - 2 := by
  have he : n + 1 + 2 ^ 32 - 3 = (n - 2) + 2 ^ 32 := by omega
  rw [he, Nat.add_mod_right, Nat.mod_eq_of_lt (by omega)]

/-- C8: a raw native exchange that succeeds at the transport level with a
non-empty reply succeeds exactly when the status byte is one of
`OPERATION_OK`, `ADDITIONAL_FRAME`, `SIGNATURE`, `NO_CHANGES`; the status
byte is always reported through `respcode`; any other status yields
`PM3_EAPDU_FAIL`; and (for the physically possible lengths ≥ 3) the
returned data is the reply with the status byte and the two trailing
bytes stripped. -/
theorem C8_sendRaw_success_statuses (reply : List Nat) (h : reply ≠ []) :
    ((DESFIRESendRaw PM3_SUCCESS reply).res = PM3_SUCCESS ↔
      (byteAt reply 0 = MFDES_S_OPERATION_OK ∨
       byteAt reply 0 = MFDES_ADDITIONAL_FRAME ∨
       byteAt reply 0 = MFDES_S_SIGNATURE ∨
       byteAt reply 0 = MFDES_S_NO_CHANGES)) ∧
    (DESFIRESendRaw PM3_SUCCESS reply).respcode = byteAt reply 0 ∧
    ((DESFIRESendRaw PM3_SUCCESS reply).res = PM3_SUCCESS ∨
     (DESFIRESendRaw PM3_SUCCESS reply).res = PM3_EAPDU_FAIL) ∧
    (3 ≤ reply.length → reply.length < 2 ^ 32 →
      (DESFIRESendRaw PM3_SUCCESS reply).result =
        (reply.drop 1).take (reply.length - 3)) := by
  match reply with
  | [] => exact absurd rfl h
  | rcode :: rest =>
    by_cases hc : rcode ≠ MFDES_S_OPERATION_OK ∧ rcode ≠ MFDES_S_SIGNATURE ∧
        rcode ≠ MFDES_ADDITIONAL_FRAME ∧ rcode ≠ MFDES_S_NO_CHANGES
    · have hred : DESFIRESendRaw PM3_SUCCESS (rcode :: rest) =
          ⟨PM3_EAPDU_FAIL, rcode, ((rcode :: rest).length + 2 ^ 32 - 3) % 2 ^ 32,
            rest.take (((rcode :: rest).length + 2 ^ 32 - 3) % 2 ^ 32)⟩ := by
        unfold DESFIRESendRaw
        rw [if_neg (by simp)]
        exact if_pos hc
      obtain ⟨h1, h2, h3, h4⟩ := hc
      refine ⟨?_, ?_, ?_, ?_⟩
      · rw [hred]
        simp only [byteAt, List.getD_cons_zero]
        constructor
        · intro hfalse
          exact absurd hfalse (by decide)
        · intro hcase
          tauto
      · rw [hred]
        simp [byteAt]
      · rw [hred]
        right
        rfl
      · intro hl3 hlen
        rw [hred]
        simp only [List.length_cons, List.drop_succ_cons, List.drop_zero]
        rw [sendRaw_len_eq rest.length (by simpa using hl3) (by simpa using hlen)]
        congr 1
    · have hsome : rcode = MFDES_S_OPERATION_OK ∨ rcode = MFDES_S_SIGNATURE ∨
          rcode = MFDES_ADDITIONAL_FRAME ∨ rcode = MFDES_S_NO_CHANGES := by
        tauto
      have hred : DESFIRESendRaw PM3_SUCCESS (rcode :: rest) =
          ⟨PM3_SUCCESS, rcode, ((rcode :: rest).length + 2 ^ 32 - 3) % 2 ^ 32,
            rest.take (((rcode :: rest).length + 2 ^ 32 - 3) % 2 ^ 32)⟩ := by
        unfold DESFIRESendRaw
        rw [if_neg (by simp)]
        exact if_neg hc
      refine ⟨?_, ?_, ?_, ?_⟩
      · rw [hred]
        simp only [byteAt, List.getD_cons_zero, true_iff]
        tauto
      · rw [hred]
        simp [byteAt]
      · rw [hred]
        left
        rfl
      · intro hl3 hlen
        rw [hred]
        simp only [List.length_cons, List.drop_succ_cons, List.drop_zero]
        rw [sendRaw_len_eq rest.length (by simpa using hl3) (by simpa using hlen)]
        congr 1

end Desfire

namespace Desfire

/-- Witness for C8: the theorem applied at the concrete transport reply
`00 11 22 33 88` (status `OPERATION_OK`, one data byte, two trailing
bytes). -/
theorem C8_sendRaw_success_statuses_witness :
    (DESFIRESendRaw PM3_SUCCESS [0x00, 0x11, 0x22, 0x33, 0x88]).respcode =
      byteAt [0x00, 0x11, 0x22, 0x33, 0x88] 0 :=
  (C8_sendRaw_success_statuses [0x00, 0x11, 0x22, 0x33, 0x88] (by decide)).2.1

set_option maxRecDepth 4096 in
/-- The `resultLen` field of `DESFIRESendRaw` on a non-empty reply,
independent of the status byte. -/
theorem sendRaw_resultLen (rcode : Nat) (rest : List Nat) :
    (DESFIRESendRaw PM3_SUCCESS (rcode :: rest)).resultLen =
      ((rcode :: rest).length + 2 ^ 32 - 3) % 2 ^ 32 := by
  by_cases hc : rcode ≠ MFDES_S_OPERATION_OK ∧ rcode ≠ MFDES_S_SIGNATURE ∧
      rcode ≠ MFDES_ADDITIONAL_FRAME ∧ rcode ≠ MFDES_S_NO_CHANGES
  · have hred : DESFIRESendRaw PM3_SUCCESS (rcode :: rest) =
        ⟨PM3_EAPDU_FAIL, rcode, ((rcode :: rest).length + 2 ^ 32 - 3) % 2 ^ 32,
          rest.take (((rcode :: rest).length + 2 ^ 32 - 3) % 2 ^ 32)⟩ := by
      unfold DESFIRESendRaw
      rw [if_neg (by simp)]
      exact if_pos hc
    rw [hred]
  · have hred : DESFIRESendRaw PM3_SUCCESS (rcode :: rest) =
        ⟨PM3_SUCCESS, rcode, ((rcode :: rest).length + 2 ^ 32 - 3) % 2 ^ 32,
          rest.take (((rcode :: rest).length + 2 ^ 32 - 3) % 2 ^ 32)⟩ := by
      unfold DESFIRESendRaw
      rw [if_neg (by simp)]
      exact if_neg hc
    rw [hred]

/-- C9: for raw replies of total length 1 or 2 the unsigned subtraction
`*result_len -= 1 + 2` wraps, reporting a length near `2^32`
(`2^32 - 2` and `2^32 - 1` respectively); only a completely empty reply
is returned with length 0. -/
theorem C9_sendRaw_length_wrap (reply : List Nat) :
    (reply.length = 1 → (DESFIRESendRaw PM3_SUCCESS reply).resultLen = 2 ^ 32 - 2) ∧
    (reply.length = 2 → (DESFIRESendRaw PM3_SUCCESS reply).resultLen = 2 ^ 32 - 1) ∧
    (reply.length = 0 → (DESFIRESendRaw PM3_SUCCESS reply).resultLen = 0) := by
  have hp : (2 : Nat) ^ 32 = 4294967296 := by norm_num
  match reply with
  | [] =>
    refine ⟨by intro h ; simp at h, by intro h ; simp at h, fun _ => rfl⟩
  | rcode :: rest =>
    rw [sendRaw_resultLen]
    simp only [List.length_cons, hp]
    refine ⟨fun h => ?_, fun h => ?_, fun h => ?_⟩ <;> omega

/-- Witness for C9: a 1-byte reply (bare status `OPERATION_OK`) is
reported with the wrapped length `2^32 - 2`. -/
theorem C9_sendRaw_length_wrap_witness :
    (DESFIRESendRaw PM3_SUCCESS [0x00]).resultLen = 2 ^ 32 - 2 :=
  (C9_sendRaw_length_wrap [0x00]).1 rfl

end Desfire

namespace Desfire

/-! ### Native TX chaining (`DesfireExchangeNative`) -/

/-- One raw-transport outcome consumed by a `DESFIRESendRaw` call inside
the native exchange: the transport's result code and its raw reply
bytes. -/
structure RawXchg where
  tres : Int
  reply : List Nat
deriving DecidableEq, Repr

/-- The TX-chaining `while (cdatalen >= sentdatalen)` loop of
`DesfireExchangeNative`, returning the list of transmitted frames.
`cdata` is `cmd || payload`; each frame carries at most `maxLen` bytes of
`cdata`, continuation frames prepend `ADDITIONAL_FRAME (0xAF)` (the C
code overwrites the already-sent byte before the chunk).  The loop sends
the next chunk, then exits on transport error or on a reply whose status
is not `ADDITIONAL_FRAME` or that carries data.  The reply list fuels the
recursion: an exhausted transport is a transport error, which also ends
the loop. -/
def desfireNativeTxLoop (maxLen : Nat) (cdata : List Nat) (sentdatalen : Nat) :
    List RawXchg → List (List Nat)
  | [] => []
  | r :: rest =>
    if sentdatalen > cdata.length then [] else
    let len := if cdata.length - sentdatalen > maxLen then maxLen
               else cdata.length - sentdatalen
    let frame := if sentdatalen > 0 then
        MFDES_ADDITIONAL_FRAME :: ((cdata.drop sentdatalen).take len)
      else cdata.take len
    let raw := DESFIRESendRaw r.tres r.reply
    if raw.res ≠ PM3_SUCCESS then [frame]
    else if raw.respcode ≠ MFDES_ADDITIONAL_FRAME ∨ raw.resultLen > 0 then [frame]
    else frame :: desfireNativeTxLoop maxLen cdata (sentdatalen + len) rest

/-- The frames transmitted by `DesfireExchangeNative` for command `cmd`
and TX payload `data` (`cdata[0] = cmd; memcpy(&cdata[1], data, datalen)`). -/
def desfireExchangeNativeTxFrames (cmd : Nat) (data : List Nat)
    (replies : List RawXchg) : List (List Nat) :=
  desfireNativeTxLoop DESFIRE_TX_FRAME_MAX_LEN (cmd :: data) 0 replies

/-- An intermediate "more data expected" ack from the card:
status `ADDITIONAL_FRAME`, no data (status byte plus two trailing
transport bytes). -/
def ackReply : RawXchg := ⟨PM3_SUCCESS, [0xAF, 0x00, 0x00]⟩

/-- A final `OPERATION_OK` reply with no data. -/
def okReply : RawXchg := ⟨PM3_SUCCESS, [0x00, 0x00, 0x00]⟩

/-- C4 counterexample: a TX payload of exactly `DESFIRE_TX_FRAME_MAX_LEN`
bytes is transmitted as TWO frames, not one: the command byte occupies
one byte of the first chunk, so one payload byte is left for a
continuation frame. -/
theorem C4_maxlen_payload_needs_two_frames :
    (desfireExchangeNativeTxFrames 0x3D (zeros DESFIRE_TX_FRAME_MAX_LEN)
        [ackReply, okReply]).length = 2 ∧
    (desfireExchangeNativeTxFrames 0x3D (zeros DESFIRE_TX_FRAME_MAX_LEN)
        [ackReply, okReply]).length ≠ 1 := by
  decide

end Desfire

namespace Desfire

/-- `DESFIRESendRaw` on the empty-data `OPERATION_OK` reply. -/
theorem sendRaw_okReply :
    DESFIRESendRaw okReply.tres okReply.reply = ⟨PM3_SUCCESS, 0, 0, []⟩ := by
  rfl

/-- `DESFIRESendRaw` on the empty-data `ADDITIONAL_FRAME` ack. -/
theorem sendRaw_ackReply :
    DESFIRESendRaw ackReply.tres ackReply.reply = ⟨PM3_SUCCESS, 0xAF, 0, []⟩ := by
  rfl

/-- Every frame emitted by the TX loop from a positive offset is a
continuation frame: its first byte is `ADDITIONAL_FRAME`. -/
theorem txLoop_tail_frames_start_af (maxLen : Nat) (cdata : List Nat) :
    ∀ (replies : List RawXchg) (s : Nat), 1 ≤ s →
      ∀ f ∈ desfireNativeTxLoop maxLen cdata s replies,
        f.headI = MFDES_ADDITIONAL_FRAME := by
  intro replies
  induction replies with
  | nil =>
    intro s hs f hf
    simp [desfireNativeTxLoop] at hf
  | cons r rest ih =>
    intro s hs f hf
    have hs0 : s > 0 := hs
    rw [desfireNativeTxLoop] at hf
    by_cases hgt : s > cdata.length
    · rw [if_pos hgt] at hf
      simp at hf
    · simp only [hgt, hs0, if_true, if_false] at hf
      split_ifs at hf <;>
        first
        | (simp only [List.mem_singleton] at hf
           subst hf
           rfl)
        | (rcases List.mem_cons.mp hf with hf | hf
           · subst hf
             rfl
           · refine ih _ ?_ f hf
             omega)

/-- Every frame after the first one transmitted by the TX loop starts
with `ADDITIONAL_FRAME`. -/
theorem txLoop_zero_tail (maxLen : Nat) (cdata : List Nat)
    (hm : 1 ≤ maxLen) (hc : 1 ≤ cdata.length) (replies : List RawXchg) :
    ∀ f ∈ (desfireNativeTxLoop maxLen cdata 0 replies).tail,
      f.headI = MFDES_ADDITIONAL_FRAME := by
  match replies with
  | [] =>
    intro f hf
    simp [desfireNativeTxLoop] at hf
  | r :: rest =>
    intro f hf
    rw [desfireNativeTxLoop] at hf
    have hgt : ¬ ((0 : Nat) > cdata.length) := by omega
    have hs0 : ¬ ((0 : Nat) > 0) := by omega
    simp only [hgt, hs0, if_true, if_false] at hf
    split_ifs at hf <;>
      first
      | (simp only [List.tail_cons] at hf
         refine txLoop_tail_frames_start_af maxLen cdata rest _ ?_ f hf
         omega)
      | simp at hf

/-- The first frame transmitted by the native exchange carries the
original command byte. -/
theorem txLoop_zero_head (maxLen : Nat) (cmd : Nat) (data : List Nat)
    (replies : List RawXchg) (f0 : List Nat) (hm : 1 ≤ maxLen)
    (h : (desfireNativeTxLoop maxLen (cmd :: data) 0 replies).head? = some f0) :
    f0.headI = cmd := by
  match replies with
  | [] => simp [desfireNativeTxLoop] at h
  | r :: rest =>
    rw [desfireNativeTxLoop] at h
    have hgt : ¬ ((0 : Nat) > (cmd :: data).length) := by omega
    have hs0 : ¬ ((0 : Nat) > 0) := by omega
    simp only [hgt, hs0, if_true, if_false] at h
    have hfr : ∀ len, 1 ≤ len → (List.take len (cmd :: data)).headI = cmd := by
      intro len hlen
      match len, hlen with
      | (k + 1), _ => simp [List.take_succ_cons]
    split_ifs at h <;>
      (simp only [List.head?_cons, Option.some.injEq] at h
       subst h
       first
       | exact hfr maxLen hm
       | (refine hfr _ ?_
          simp only [List.length_cons, Nat.sub_zero]
          omega))

end Desfire

namespace Desfire

/-- C4 (amended): in a native exchange where the card acks intermediate
frames with a bare `ADDITIONAL_FRAME` status, a TX payload of
`DESFIRE_TX_FRAME_MAX_LEN - 1` bytes is transmitted as one frame (the
command byte shares the per-frame chunk with the payload), while payloads
of `DESFIRE_TX_FRAME_MAX_LEN` and `DESFIRE_TX_FRAME_MAX_LEN + 1` bytes
are each transmitted as two frames; for every native exchange the first
transmitted frame carries the original command byte and every subsequent
frame carries `ADDITIONAL_FRAME (0xAF)` as its command byte. -/
theorem C4_tx_chaining (cmd : Nat) (data : List Nat) :
    (data.length = DESFIRE_TX_FRAME_MAX_LEN - 1 →
      desfireExchangeNativeTxFrames cmd data [okReply] = [cmd :: data]) ∧
    (data.length = DESFIRE_TX_FRAME_MAX_LEN →
      (desfireExchangeNativeTxFrames cmd data [ackReply, okReply]).length = 2) ∧
    (data.length = DESFIRE_TX_FRAME_MAX_LEN + 1 →
      (desfireExchangeNativeTxFrames cmd data [ackReply, okReply]).length = 2) ∧
    (∀ (replies : List RawXchg) (f0 : List Nat),
      (desfireExchangeNativeTxFrames cmd data replies).head? = some f0 →
        f0.headI = cmd) ∧
    (∀ (replies : List RawXchg),
      ∀ f ∈ (desfireExchangeNativeTxFrames cmd data replies).tail,
        f.headI = MFDES_ADDITIONAL_FRAME) := by
  refine ⟨fun h => ?_, fun h => ?_, fun h => ?_, fun replies f0 hh => ?_, fun replies => ?_⟩
  · simp only [desfireExchangeNativeTxFrames, desfireNativeTxLoop, sendRaw_okReply,
      DESFIRE_TX_FRAME_MAX_LEN, List.length_cons, h]
    norm_num
    rw [h]
    decide
  · simp only [desfireExchangeNativeTxFrames, desfireNativeTxLoop, sendRaw_okReply,
      sendRaw_ackReply, DESFIRE_TX_FRAME_MAX_LEN, MFDES_ADDITIONAL_FRAME,
      List.length_cons, h]
    norm_num
  · simp only [desfireExchangeNativeTxFrames, desfireNativeTxLoop, sendRaw_okReply,
      sendRaw_ackReply, DESFIRE_TX_FRAME_MAX_LEN, MFDES_ADDITIONAL_FRAME,
      List.length_cons, h]
    norm_num
  · exact txLoop_zero_head DESFIRE_TX_FRAME_MAX_LEN cmd data replies f0 (by decide) hh
  · exact txLoop_zero_tail DESFIRE_TX_FRAME_MAX_LEN (cmd :: data) (by decide)
      (by simp) replies

/-- Witness for C4: a 55-byte payload under command `0x3D` with an
immediately successful card reply goes out as the single frame
`cmd || payload`. -/
theorem C4_tx_chaining_witness :
    desfireExchangeNativeTxFrames 0x3D (zeros (DESFIRE_TX_FRAME_MAX_LEN - 1)) [okReply] =
      [0x3D :: zeros (DESFIRE_TX_FRAME_MAX_LEN - 1)] :=
  (C4_tx_chaining 0x3D (zeros (DESFIRE_TX_FRAME_MAX_LEN - 1))).1 (by decide)

end Desfire

namespace Desfire

/-! ### Session context (`DesfireContext`) and session clearing -/

/-- `DesfireContext` (the fields the claims touch).  Fixed-size C arrays
(`sessionKeyEnc[24]`, `sessionKeyMAC[24]`, `IV[24]`, `TI[4]`) are byte
lists of that length. -/
structure DesfireContext where
  keyNum : Nat
  keyType : DesfireCryptoAlgorythm
  key : List Nat
  kdfAlgo : Nat
  kdfInput : List Nat
  secureChannel : DesfireSecureChannel
  cmdSet : DesfireCommandSet
  commMode : DesfireCommunicationMode
  sessionKeyEnc : List Nat
  sessionKeyMAC : List Nat
  IV : List Nat
  TI : List Nat
  cmdCntr : Nat
  appSelected : Bool
deriving DecidableEq, Repr

/-- Modelled from the spec: `DesfireClearSession` (in
`desfiresecurechan.c`, not in the sources) returns the session to the
unauthenticated state, "wiping the provisional session keys": the secure
channel becomes `None` and the session keys, IV, transaction identifier
and command counter are zeroed.  The application-selected flag is not
session state and is untouched. -/
def DesfireClearSession (ctx : DesfireContext) : DesfireContext :=
  { ctx with
      secureChannel := DACNone
      sessionKeyEnc := zeros DESFIRE_MAX_KEY_SIZE
      sessionKeyMAC := zeros DESFIRE_MAX_KEY_SIZE
      IV := zeros DESFIRE_MAX_KEY_SIZE
      TI := zeros 4
      cmdCntr := 0 }

/-- Modelled from the spec: `DesfireClearIV` zeroes the context IV. -/
def DesfireClearIV (ctx : DesfireContext) : DesfireContext :=
  { ctx with IV := zeros DESFIRE_MAX_KEY_SIZE }

/-- Modelled from the spec: `DesfireIsAuthenticated` — "Session state
exists ⇔ secure-channel variant ≠ None". -/
def DesfireIsAuthenticated (ctx : DesfireContext) : Bool :=
  ctx.secureChannel ≠ DACNone

/-- One `DesfireExchangeEx` outcome as seen by its caller: result code,
response code, reassembled response data, and the IV / EV2 command
counter the secure-channel codec leaves in the context (the codec
mutates only those two context fields). -/
structure XchgReply where
  res : Int
  respcode : Nat
  data : List Nat
  ivAfter : List Nat
  cntrAfter : Nat
deriving DecidableEq, Repr

/-- Apply an exchange's context side effect (IV and command counter). -/
def applyXchg (ctx : DesfireContext) (r : XchgReply) : DesfireContext :=
  { ctx with IV := r.ivAfter, cmdCntr := r.cntrAfter }

/-! ### CRC primitives

`crc16.c` / `crc32.c` are external pure primitives (out of scope per the
spec); modelled from the spec: CRC16/CCITT as used by ISO 14443-A
(reflected polynomial `0x8408`, initial value `0x6363`, appended
little-endian) and the DESFire CRC32 variant (reflected polynomial
`0xEDB88320`, initial value `0xFFFFFFFF`, no final complement, appended
little-endian). -/

def crc16Bit (c : Nat) : Nat :=
  if c &&& 1 = 1 then (c >>> 1) ^^^ 0x8408 else c >>> 1

def crc16Byte (crc b : Nat) : Nat := crc16Bit^[8] (crc ^^^ (b &&& 0xFF))

/-- Modelled from the spec: the ISO 14443-A CRC16 value over a byte
stream. -/
def crc16A (data : List Nat) : Nat := data.foldl crc16Byte 0x6363

/-- Modelled from the spec: `iso14443a_crc` — the two CRC16 bytes,
little-endian. -/
def iso14443a_crc (data : List Nat) : List Nat :=
  [crc16A data &&& 0xFF, (crc16A data >>> 8) &&& 0xFF]

def crc32Bit (c : Nat) : Nat :=
  if c &&& 1 = 1 then (c >>> 1) ^^^ 0xEDB88320 else c >>> 1

def crc32ByteStep (crc b : Nat) : Nat := crc32Bit^[8] (crc ^^^ (b &&& 0xFF))

/-- Modelled from the spec: the DESFire CRC32 value (initial
`0xFFFFFFFF`, no final complement). -/
def crc32Desfire (data : List Nat) : Nat := data.foldl crc32ByteStep 0xFFFFFFFF

/-- Modelled from the spec: `desfire_crc32` — the four CRC32 bytes,
little-endian. -/
def desfire_crc32 (data : List Nat) : List Nat :=
  [crc32Desfire data &&& 0xFF, (crc32Desfire data >>> 8) &&& 0xFF,
   (crc32Desfire data >>> 16) &&& 0xFF, (crc32Desfire data >>> 24) &&& 0xFF]

/-! ### ChangeKey (`DesfireChangeKey`) -/

/-- Modelled from the spec: `DesfireKeyAlgoToType` (in `desfirecrypto.c`,
not in the sources) — the 2-bit on-card key-type code of an algorithm
(DES families share code 0, 3K3DES is 1, AES is 2), as encoded in bits
7–6 of the key-number byte of a PICC master-key change and in the high
bits of the raw num-keys byte. -/
def DesfireKeyAlgoToType : DesfireCryptoAlgorythm → Nat
  | T_DES => 0
  | T_3DES => 0
  | T_3K3DES => 1
  | T_AES => 2

/-- Modelled from the spec: `DesfireDESKeySetVersion` (in
`desfirecrypto.c`, not in the sources) — for DES-family keys the key
version byte is encoded into the low (parity) bits of the key bytes: the
low bit of each of the key's bytes is cleared and bit `7 - n` of the
version is written into byte `n` of the first half.  AES keys are left
untouched (their version travels as a separate byte). -/
def DesfireDESKeySetVersion (keytype : DesfireCryptoAlgorythm) (key : List Nat)
    (version : Nat) : List Nat :=
  if keytype = T_AES then key
  else key.mapIdx (fun i b =>
    if i < desfire_get_key_length keytype then
      (b &&& 0xFE) ||| (if i < 8 then (version >>> (7 - i)) &&& 1 else 0)
    else b)

/-- The 24-byte `okeybuf` of `DesfireChangeKey`: the old key, with a DES
key widened to 2TDEA by duplicating its 8 bytes into the second half. -/
def changeKeyOldKeyBuf (oldkeytype : DesfireCryptoAlgorythm) (oldkey : List Nat) :
    List Nat :=
  let okeybuf0 := storeBytes (zeros DESFIRE_MAX_KEY_SIZE) 0
      (oldkey.take (desfire_get_key_length oldkeytype))
  if oldkeytype = T_DES then storeBytes okeybuf0 8 (oldkey.take 8) else okeybuf0

/-- The effective length of the new-key material in the ChangeKey
cryptogram: a DES key is transmitted at 2TDEA length. -/
def changeKeyNewKeyLen (newkeytype : DesfireCryptoAlgorythm) : Nat :=
  if newkeytype = T_DES then desfire_get_key_length T_3DES
  else desfire_get_key_length newkeytype

/-- The 24-byte `nkeybuf` of `DesfireChangeKey`: the new key, DES widened
to 2TDEA, with the DES-family key version encoded into the parity bits
when `newkeyver < 0x100` (a version of `0x100` or more disables version
encoding). -/
def changeKeyNewKeyBuf (newkeytype : DesfireCryptoAlgorythm) (newkeyver : Nat)
    (newkey : List Nat) : List Nat :=
  let nkeybuf0 := storeBytes (zeros DESFIRE_MAX_KEY_SIZE) 0
      (newkey.take (desfire_get_key_length newkeytype))
  let nkeybuf1 := if newkeytype = T_DES then storeBytes nkeybuf0 8 (newkey.take 8)
    else nkeybuf0
  if newkeytype ≠ T_AES ∧ newkeyver < 0x100 then
    DesfireDESKeySetVersion newkeytype nkeybuf1 newkeyver
  else nkeybuf1

/-- The ChangeKey cryptogram constructed by `DesfireChangeKey` before the
secure channel enciphers it: the key-number byte `pckcdata[1]` and the
plaintext-plus-checksums buffer `cdata = &pckcdata[2]` (of the final
`cdatalen` bytes).  The new key is XORed with the old key only when a
different key is being changed, an AES key appends its version byte, and
the checksums are CRC16 over `cdata` alone under D40 and CRC32 over
`cmd || keyNoByte || cdata` otherwise, followed (for a different key) by
a checksum over the processed new key alone. -/
def DesfireChangeKeyPacket (authKeyNum : Nat) (secureChannel : DesfireSecureChannel)
    (change_master_key : Bool) (newkeynum : Nat)
    (newkeytype : DesfireCryptoAlgorythm) (newkeyver : Nat)
    (newkey : List Nat) (oldkeytype : DesfireCryptoAlgorythm) (oldkey : List Nat) :
    Nat × List Nat :=
  let keynodata0 := newkeynum &&& 0x3f
  let keynodata := if change_master_key then
      keynodata0 ||| ((DesfireKeyAlgoToType newkeytype &&& 0x03) <<< 6)
    else keynodata0
  let okeybuf := changeKeyOldKeyBuf oldkeytype oldkey
  let nkeylen := changeKeyNewKeyLen newkeytype
  let nkeybuf := changeKeyNewKeyBuf newkeytype newkeyver newkey
  let cdata0 := if newkeynum = authKeyNum then nkeybuf.take nkeylen
    else binXor (nkeybuf.take nkeylen) (okeybuf.take nkeylen)
  let cdata1 := if newkeytype = T_AES then cdata0 ++ [newkeyver % 256] else cdata0
  let cdata :=
    if secureChannel = DACd40 then
      let c1 := cdata1 ++ iso14443a_crc cdata1
      if newkeynum ≠ authKeyNum then c1 ++ iso14443a_crc (nkeybuf.take nkeylen) else c1
    else
      let c1 := cdata1 ++ desfire_crc32 (MFDES_CHANGE_KEY :: keynodata :: cdata1)
      if newkeynum ≠ authKeyNum then c1 ++ desfire_crc32 (nkeybuf.take nkeylen) else c1
  (keynodata, cdata)

/-- The result-and-state effect of `DesfireChangeKey`: the cryptogram is
sent through `DesfireChangeKeyCmd → DesfireCommand → DesfireExchangeEx`
(the exchange outcome is the oracle `r`); a success with a non-empty
response becomes `-20` (`PM3_EAPDU_FAIL`); and when the changed key is
the currently authenticated one the session is cleared unconditionally
after the exchange. -/
def DesfireChangeKey (dctx : DesfireContext) (change_master_key : Bool)
    (newkeynum : Nat) (newkeytype : DesfireCryptoAlgorythm) (newkeyver : Nat)
    (newkey : List Nat) (oldkeytype : DesfireCryptoAlgorythm) (oldkey : List Nat)
    (r : XchgReply) : Int × DesfireContext :=
  let _pck := DesfireChangeKeyPacket dctx.keyNum dctx.secureChannel change_master_key
      newkeynum newkeytype newkeyver newkey oldkeytype oldkey
  let dctx1 := applyXchg dctx r
  let res0 : Int := if r.res ≠ PM3_SUCCESS then r.res
    else if r.respcode ≠ MFDES_S_OPERATION_OK then PM3_EAPDU_FAIL
    else PM3_SUCCESS
  let resplen := if res0 = PM3_SUCCESS then r.data.length else 0
  let res := if res0 = PM3_SUCCESS ∧ resplen > 0 then PM3_EAPDU_FAIL else res0
  let dctx2 := if newkeynum = dctx.keyNum then DesfireClearSession dctx1 else dctx1
  (res, dctx2)

end Desfire

namespace Desfire

/-- The processed new-key bytes that enter the ChangeKey plaintext: the
prepared 24-byte buffer truncated to the transmitted key length. -/
def ckNewPrefix (newkeytype : DesfireCryptoAlgorythm) (newkeyver : Nat)
    (newkey : List Nat) : List Nat :=
  (changeKeyNewKeyBuf newkeytype newkeyver newkey).take (changeKeyNewKeyLen newkeytype)

/-- The old-key bytes XORed into the plaintext when a different key is
changed (old-key buffer truncated to the new key's transmitted length). -/
def ckOldPrefix (newkeytype oldkeytype : DesfireCryptoAlgorythm)
    (oldkey : List Nat) : List Nat :=
  (changeKeyOldKeyBuf oldkeytype oldkey).take (changeKeyNewKeyLen newkeytype)

/-- The version byte appended to the plaintext for an AES new key. -/
def ckVersionTrailer (newkeytype : DesfireCryptoAlgorythm) (newkeyver : Nat) : List Nat :=
  if newkeytype = T_AES then [newkeyver % 256] else []

set_option maxRecDepth 100000 in
/-- C2 counterexample: a D40-channel ChangeKey of a *different* DES key
(auth key 0, new key number 1, new key `01..08`, old key all-zero,
version encoding disabled).  The appended CRC16 covers the plaintext
alone — the cryptogram does NOT carry a CRC16 over
`cmd || keyNoByte || plaintext` as the claim states. -/
theorem C2_d40_crc16_covers_plaintext_only :
    (DesfireChangeKeyPacket 0 DACd40 false 1 T_DES 0x100
        [1, 2, 3, 4, 5, 6, 7, 8] T_DES (zeros 8)).2 =
      [1, 2, 3, 4, 5, 6, 7, 8, 1, 2, 3, 4, 5, 6, 7, 8] ++
        iso14443a_crc [1, 2, 3, 4, 5, 6, 7, 8, 1, 2, 3, 4, 5, 6, 7, 8] ++
        iso14443a_crc [1, 2, 3, 4, 5, 6, 7, 8, 1, 2, 3, 4, 5, 6, 7, 8] ∧
    (DesfireChangeKeyPacket 0 DACd40 false 1 T_DES 0x100
        [1, 2, 3, 4, 5, 6, 7, 8] T_DES (zeros 8)).2 ≠
      [1, 2, 3, 4, 5, 6, 7, 8, 1, 2, 3, 4, 5, 6, 7, 8] ++
        iso14443a_crc (MFDES_CHANGE_KEY :: 0x01 ::
          [1, 2, 3, 4, 5, 6, 7, 8, 1, 2, 3, 4, 5, 6, 7, 8]) ++
        iso14443a_crc [1, 2, 3, 4, 5, 6, 7, 8, 1, 2, 3, 4, 5, 6, 7, 8] := by
  constructor
  · decide
  · decide

/-- C2 (amended): the ChangeKey cryptogram.  The key-number byte is
`newkeynum & 0x3f`, with the new algorithm's 2-bit code in bits 7–6 for a
PICC master-key change.  When changing a different key the plaintext is
`(newKey XOR oldKey) [|| newKeyVersion(AES)]` followed by a checksum and
a second checksum over the processed new key alone; when changing the
currently authenticated key it is `newKey [|| newKeyVersion(AES)]` with a
single checksum.  The checksum is CRC16 under D40 and CRC32 under
EV1/EV2; the CRC32 covers `cmd || keyNoByte || plaintext`, but the D40
CRC16 covers the plaintext alone. -/
theorem C2_changeKey_cryptogram (authKeyNum : Nat) (sc : DesfireSecureChannel)
    (cmk : Bool) (newkeynum : Nat)
    (newkeytype oldkeytype : DesfireCryptoAlgorythm) (newkeyver : Nat)
    (newkey oldkey : List Nat) :
    ((DesfireChangeKeyPacket authKeyNum sc cmk newkeynum newkeytype newkeyver newkey
        oldkeytype oldkey).1 =
      ((newkeynum &&& 0x3f) |||
        (if cmk then (DesfireKeyAlgoToType newkeytype &&& 0x03) <<< 6 else 0))) ∧
    (sc = DACd40 → newkeynum = authKeyNum →
      (DesfireChangeKeyPacket authKeyNum sc cmk newkeynum newkeytype newkeyver newkey
        oldkeytype oldkey).2 =
        (ckNewPrefix newkeytype newkeyver newkey ++
          ckVersionTrailer newkeytype newkeyver) ++
        iso14443a_crc (ckNewPrefix newkeytype newkeyver newkey ++
          ckVersionTrailer newkeytype newkeyver)) ∧
    (sc = DACd40 → newkeynum ≠ authKeyNum →
      (DesfireChangeKeyPacket authKeyNum sc cmk newkeynum newkeytype newkeyver newkey
        oldkeytype oldkey).2 =
        (binXor (ckNewPrefix newkeytype newkeyver newkey)
            (ckOldPrefix newkeytype oldkeytype oldkey) ++
          ckVersionTrailer newkeytype newkeyver) ++
        iso14443a_crc (binXor (ckNewPrefix newkeytype newkeyver newkey)
            (ckOldPrefix newkeytype oldkeytype oldkey) ++
          ckVersionTrailer newkeytype newkeyver) ++
        iso14443a_crc (ckNewPrefix newkeytype newkeyver newkey)) ∧
    (sc ≠ DACd40 → newkeynum = authKeyNum →
      (DesfireChangeKeyPacket authKeyNum sc cmk newkeynum newkeytype newkeyver newkey
        oldkeytype oldkey).2 =
        (ckNewPrefix newkeytype newkeyver newkey ++
          ckVersionTrailer newkeytype newkeyver) ++
        desfire_crc32 (MFDES_CHANGE_KEY ::
          ((newkeynum &&& 0x3f) |||
            (if cmk then (DesfireKeyAlgoToType newkeytype &&& 0x03) <<< 6 else 0)) ::
          (ckNewPrefix newkeytype newkeyver newkey ++
            ckVersionTrailer newkeytype newkeyver))) ∧
    (sc ≠ DACd40 → newkeynum ≠ authKeyNum →
      (DesfireChangeKeyPacket authKeyNum sc cmk newkeynum newkeytype newkeyver newkey
        oldkeytype oldkey).2 =
        (binXor (ckNewPrefix newkeytype newkeyver newkey)
            (ckOldPrefix newkeytype oldkeytype oldkey) ++
          ckVersionTrailer newkeytype newkeyver) ++
        desfire_crc32 (MFDES_CHANGE_KEY ::
          ((newkeynum &&& 0x3f) |||
            (if cmk then (DesfireKeyAlgoToType newkeytype &&& 0x03) <<< 6 else 0)) ::
          (binXor (ckNewPrefix newkeytype newkeyver newkey)
            (ckOldPrefix newkeytype oldkeytype oldkey) ++
          ckVersionTrailer newkeytype newkeyver)) ++
        desfire_crc32 (ckNewPrefix newkeytype newkeyver newkey)) := by
  refine ⟨?_, ?_, ?_, ?_, ?_⟩
  · by_cases hc : cmk <;> simp [DesfireChangeKeyPacket, hc]
  · intro hd40 hsame
    by_cases hA : newkeytype = T_AES <;>
      simp [DesfireChangeKeyPacket, ckNewPrefix, ckVersionTrailer, hd40, hsame, hA]
  · intro hd40 hdiff
    by_cases hA : newkeytype = T_AES <;>
      simp [DesfireChangeKeyPacket, ckNewPrefix, ckOldPrefix, ckVersionTrailer,
        hd40, hdiff, hA]
  · intro hd40 hsame
    by_cases hA : newkeytype = T_AES <;> by_cases hc : cmk <;>
      simp [DesfireChangeKeyPacket, ckNewPrefix, ckVersionTrailer, hd40, hsame, hA, hc]
  · intro hd40 hdiff
    by_cases hA : newkeytype = T_AES <;> by_cases hc : cmk <;>
      simp [DesfireChangeKeyPacket, ckNewPrefix, ckOldPrefix, ckVersionTrailer,
        hd40, hdiff, hA, hc]

set_option maxRecDepth 100000 in
/-- Witness for C2: the amended theorem applied at the concrete D40
different-key change of the counterexample's input. -/
theorem C2_changeKey_cryptogram_witness :
    (DesfireChangeKeyPacket 0 DACd40 false 1 T_DES 0x100
        [1, 2, 3, 4, 5, 6, 7, 8] T_DES (zeros 8)).2 =
      (binXor (ckNewPrefix T_DES 0x100 [1, 2, 3, 4, 5, 6, 7, 8])
          (ckOldPrefix T_DES T_DES (zeros 8)) ++
        ckVersionTrailer T_DES 0x100) ++
      iso14443a_crc (binXor (ckNewPrefix T_DES 0x100 [1, 2, 3, 4, 5, 6, 7, 8])
          (ckOldPrefix T_DES T_DES (zeros 8)) ++
        ckVersionTrailer T_DES 0x100) ++
      iso14443a_crc (ckNewPrefix T_DES 0x100 [1, 2, 3, 4, 5, 6, 7, 8]) :=
  (C2_changeKey_cryptogram 0 DACd40 false 1 T_DES T_DES 0x100
      [1, 2, 3, 4, 5, 6, 7, 8] (zeros 8)).2.2.1 rfl (by decide)

end Desfire

namespace Desfire

/-- C7: changing the key one is currently authenticated with
(`newkeynum = keyNum`) leaves the session cleared — secure channel
`None`, session keys zeroed — after a successful completion. -/
theorem C7_changeKey_success_clears_session (dctx : DesfireContext) (cmk : Bool)
    (newkeynum : Nat) (newkeytype oldkeytype : DesfireCryptoAlgorythm)
    (newkeyver : Nat) (newkey oldkey : List Nat) (r : XchgReply)
    (hk : newkeynum = dctx.keyNum)
    (hres : (DesfireChangeKey dctx cmk newkeynum newkeytype newkeyver newkey
      oldkeytype oldkey r).1 = PM3_SUCCESS) :
    (DesfireChangeKey dctx cmk newkeynum newkeytype newkeyver newkey
      oldkeytype oldkey r).2 = DesfireClearSession (applyXchg dctx r) ∧
    (DesfireChangeKey dctx cmk newkeynum newkeytype newkeyver newkey
      oldkeytype oldkey r).2.secureChannel = DACNone ∧
    (DesfireChangeKey dctx cmk newkeynum newkeytype newkeyver newkey
      oldkeytype oldkey r).2.sessionKeyEnc = zeros DESFIRE_MAX_KEY_SIZE ∧
    (DesfireChangeKey dctx cmk newkeynum newkeytype newkeyver newkey
      oldkeytype oldkey r).2.sessionKeyMAC = zeros DESFIRE_MAX_KEY_SIZE := by
  refine ⟨?_, ?_, ?_, ?_⟩ <;> simp [DesfireChangeKey, hk, DesfireClearSession]

/-- Witness for C7: a concrete successful change of the authenticated key
(key 0, EV1 channel, card replies `OPERATION_OK` with no data). -/
theorem C7_changeKey_success_clears_session_witness :
    (DesfireChangeKey
      ⟨0, T_AES, zeros 16, 0, [], DACEV1, DCCNative, DCMEncrypted,
        zeros 24, zeros 24, zeros 24, zeros 4, 0, true⟩
      false 0 T_AES 0 (zeros 16) T_AES (zeros 16)
      ⟨PM3_SUCCESS, MFDES_S_OPERATION_OK, [], zeros 24, 0⟩).2.secureChannel =
      DACNone :=
  (C7_changeKey_success_clears_session _ false 0 T_AES T_AES 0 (zeros 16) (zeros 16)
    _ rfl (by decide)).2.1

/-- C10: changing the currently authenticated key clears the session
unconditionally after the exchange — whatever the exchange's result code,
response status or response length — so the caller must re-authenticate
after any such attempt. -/
theorem C10_changeKey_clears_session_unconditionally (dctx : DesfireContext)
    (cmk : Bool) (newkeynum : Nat)
    (newkeytype oldkeytype : DesfireCryptoAlgorythm) (newkeyver : Nat)
    (newkey oldkey : List Nat) (r : XchgReply)
    (hk : newkeynum = dctx.keyNum) :
    (DesfireChangeKey dctx cmk newkeynum newkeytype newkeyver newkey
      oldkeytype oldkey r).2 = DesfireClearSession (applyXchg dctx r) ∧
    (DesfireChangeKey dctx cmk newkeynum newkeytype newkeyver newkey
      oldkeytype oldkey r).2.secureChannel = DACNone ∧
    (DesfireChangeKey dctx cmk newkeynum newkeytype newkeyver newkey
      oldkeytype oldkey r).2.sessionKeyEnc = zeros DESFIRE_MAX_KEY_SIZE ∧
    (DesfireChangeKey dctx cmk newkeynum newkeytype newkeyver newkey
      oldkeytype oldkey r).2.sessionKeyMAC = zeros DESFIRE_MAX_KEY_SIZE := by
  refine ⟨?_, ?_, ?_, ?_⟩ <;> simp [DesfireChangeKey, hk, DesfireClearSession]

/-- Witness for C10: a concrete FAILED change of the authenticated key
(card answers with an authentication-error status, so the command fails
with `PM3_EAPDU_FAIL`) still clears the session. -/
theorem C10_changeKey_clears_session_unconditionally_witness :
    (DesfireChangeKey
      ⟨0, T_AES, zeros 16, 0, [], DACEV1, DCCNative, DCMEncrypted,
        zeros 24, zeros 24, zeros 24, zeros 4, 0, true⟩
      false 0 T_AES 0 (zeros 16) T_AES (zeros 16)
      ⟨PM3_SUCCESS, 0xAE, [], zeros 24, 0⟩).2.secureChannel = DACNone :=
  (C10_changeKey_clears_session_unconditionally _ false 0 T_AES T_AES 0
    (zeros 16) (zeros 16) _ rfl).2.1

end Desfire

namespace Desfire

/-! ### Select application (`DesfireSelectAID`,
`DesfireSelectAIDHexNoFieldOn`) -/

/-- The shared select-application post-processing of `DesfireSelectAID`
and `DesfireSelectAIDHexNoFieldOn` (their bodies are identical except for
how the new `appSelected` flag is computed): the secure channel is set to
`None` before the `DesfireExchangeEx` call (oracle `r`); a clean
`OPERATION_OK` empty response clears the session and installs `appSel`;
a non-empty response is `PM3_ECARDEXCHANGE`; any other status is
`PM3_EAPDU_FAIL`. -/
def desfireSelectCore (ctx : DesfireContext) (appSel : Bool)
    (r : XchgReply) : Int × DesfireContext :=
  let ctx1 := applyXchg { ctx with secureChannel := DACNone } r
  if r.res = PM3_SUCCESS then
    if r.data.length ≠ 0 then (PM3_ECARDEXCHANGE, ctx1)
    else if r.respcode ≠ MFDES_S_OPERATION_OK then (PM3_EAPDU_FAIL, ctx1)
    else (PM3_SUCCESS, { DesfireClearSession ctx1 with appSelected := appSel })
  else (r.res, ctx1)

/-- `DesfireSelectAID`: select by 3-byte AID (optionally two AIDs; the
second AID only extends the payload).  `appSelected` becomes true iff any
byte of the first AID is non-zero.  A null first AID is
`PM3_EINVARG`. -/
def DesfireSelectAID (ctx : DesfireContext) (aid1 : Option (List Nat))
    (_aid2 : Option (List Nat)) (r : XchgReply) : Int × DesfireContext :=
  match aid1 with
  | none => (PM3_EINVARG, ctx)
  | some a1 => desfireSelectCore ctx
      (decide (byteAt a1 0 ≠ 0 ∨ byteAt a1 1 ≠ 0 ∨ byteAt a1 2 ≠ 0)) r

/-- `DesfireSelectAIDHexNoFieldOn`: select a single AID given as a 24-bit
number, without re-energising the field.  `appSelected := aid ≠ 0x000000`. -/
def DesfireSelectAIDHexNoFieldOn (ctx : DesfireContext) (aid : Nat)
    (r : XchgReply) : Int × DesfireContext :=
  desfireSelectCore ctx (decide (aid ≠ 0x000000)) r

/-- The select post-processing succeeds exactly on a clean transport
result with an empty `OPERATION_OK` response. -/
theorem selectCore_success_iff (ctx : DesfireContext) (appSel : Bool)
    (r : XchgReply) :
    (desfireSelectCore ctx appSel r).1 = PM3_SUCCESS ↔
      (r.res = PM3_SUCCESS ∧ r.data.length = 0 ∧
       r.respcode = MFDES_S_OPERATION_OK) := by
  unfold desfireSelectCore
  split_ifs with h1 h2 h3
  · constructor
    · intro hh
      have hv : PM3_ECARDEXCHANGE = PM3_SUCCESS := hh
      exact absurd hv (by decide)
    · rintro ⟨_, hlen, _⟩
      exact absurd hlen h2
  · constructor
    · intro hh
      have hv : PM3_EAPDU_FAIL = PM3_SUCCESS := hh
      exact absurd hv (by decide)
    · rintro ⟨_, _, hrc⟩
      exact absurd hrc h3
  · exact ⟨fun _ => ⟨h1, by omega, not_not.mp h3⟩, fun _ => rfl⟩
  · constructor
    · intro hh
      have hv : r.res = PM3_SUCCESS := hh
      exact absurd hv h1
    · rintro ⟨hh, _, _⟩
      exact absurd hh h1

/-- Shape of the select post-processing on success. -/
theorem selectCore_success_eq (ctx : DesfireContext) (appSel : Bool)
    (r : XchgReply) (h1 : r.res = PM3_SUCCESS) (h2 : r.data.length = 0)
    (h3 : r.respcode = MFDES_S_OPERATION_OK) :
    desfireSelectCore ctx appSel r =
      (PM3_SUCCESS,
        { DesfireClearSession (applyXchg { ctx with secureChannel := DACNone } r) with
            appSelected := appSel }) := by
  unfold desfireSelectCore
  rw [if_pos h1, if_neg (by simp [h2]), if_neg (by simp [h3])]

/-- C5: after every successful select-application call the session is
unauthenticated with the session keys zeroed, and `appSelected` is false
iff the (first) selected AID is `0x000000`. -/
theorem C5_select_clears_session (ctx ctxB : DesfireContext) (a1 : List Nat)
    (aid2 : Option (List Nat)) (aid : Nat) (r rB : XchgReply) :
    ((DesfireSelectAID ctx (some a1) aid2 r).1 = PM3_SUCCESS →
      (DesfireSelectAID ctx (some a1) aid2 r).2.secureChannel = DACNone ∧
      (DesfireSelectAID ctx (some a1) aid2 r).2.sessionKeyEnc = zeros DESFIRE_MAX_KEY_SIZE ∧
      (DesfireSelectAID ctx (some a1) aid2 r).2.sessionKeyMAC = zeros DESFIRE_MAX_KEY_SIZE ∧
      ((DesfireSelectAID ctx (some a1) aid2 r).2.appSelected = false ↔
        (byteAt a1 0 = 0 ∧ byteAt a1 1 = 0 ∧ byteAt a1 2 = 0))) ∧
    ((DesfireSelectAIDHexNoFieldOn ctxB aid rB).1 = PM3_SUCCESS →
      (DesfireSelectAIDHexNoFieldOn ctxB aid rB).2.secureChannel = DACNone ∧
      (DesfireSelectAIDHexNoFieldOn ctxB aid rB).2.sessionKeyEnc = zeros DESFIRE_MAX_KEY_SIZE ∧
      (DesfireSelectAIDHexNoFieldOn ctxB aid rB).2.sessionKeyMAC = zeros DESFIRE_MAX_KEY_SIZE ∧
      ((DesfireSelectAIDHexNoFieldOn ctxB aid rB).2.appSelected = false ↔
        aid = 0x000000)) := by
  constructor
  · intro h
    have hs : (desfireSelectCore ctx
        (decide (byteAt a1 0 ≠ 0 ∨ byteAt a1 1 ≠ 0 ∨ byteAt a1 2 ≠ 0)) r).1 =
        PM3_SUCCESS := h
    obtain ⟨h1, h2, h3⟩ := (selectCore_success_iff _ _ _).mp hs
    have heq : DesfireSelectAID ctx (some a1) aid2 r =
        (PM3_SUCCESS,
          { DesfireClearSession (applyXchg { ctx with secureChannel := DACNone } r) with
              appSelected :=
                decide (byteAt a1 0 ≠ 0 ∨ byteAt a1 1 ≠ 0 ∨ byteAt a1 2 ≠ 0) }) :=
      selectCore_success_eq _ _ _ h1 h2 h3
    rw [heq]
    refine ⟨rfl, rfl, rfl, ?_⟩
    simp only [DesfireClearSession, decide_eq_false_iff_not]
    push_neg
    tauto
  · intro h
    have hs : (desfireSelectCore ctxB (decide (aid ≠ 0x000000)) rB).1 =
        PM3_SUCCESS := h
    obtain ⟨h1, h2, h3⟩ := (selectCore_success_iff _ _ _).mp hs
    have heq : DesfireSelectAIDHexNoFieldOn ctxB aid rB =
        (PM3_SUCCESS,
          { DesfireClearSession (applyXchg { ctxB with secureChannel := DACNone } rB) with
              appSelected := decide (aid ≠ 0x000000) }) :=
      selectCore_success_eq _ _ _ h1 h2 h3
    rw [heq]
    refine ⟨rfl, rfl, rfl, ?_⟩
    simp only [DesfireClearSession, decide_eq_false_iff_not]
    push_neg
    tauto

/-- Witness for C5: selecting AID `0x000001` after an authenticated EV1
session, with a clean empty `OPERATION_OK` reply, returns the session to
`None` and sets `appSelected`. -/
theorem C5_select_clears_session_witness :
    (DesfireSelectAID
      ⟨0, T_AES, zeros 16, 0, [], DACEV1, DCCNative, DCMPlain,
        zeros 24, zeros 24, zeros 24, zeros 4, 7, false⟩
      (some [0x01, 0x00, 0x00]) none
      ⟨PM3_SUCCESS, MFDES_S_OPERATION_OK, [], zeros 24, 0⟩).2.secureChannel =
      DACNone :=
  ((C5_select_clears_session _
      ⟨0, T_AES, zeros 16, 0, [], DACEV1, DCCNative, DCMPlain,
        zeros 24, zeros 24, zeros 24, zeros 4, 7, false⟩
      [0x01, 0x00, 0x00] none 0
      ⟨PM3_SUCCESS, MFDES_S_OPERATION_OK, [], zeros 24, 0⟩
      ⟨PM3_SUCCESS, MFDES_S_OPERATION_OK, [], zeros 24, 0⟩).1 (by decide)).1

end Desfire

namespace Desfire

/-! ### EV2 authentication (`DesfireAuthenticateEV2`) -/

def CRYPTO_AES_BLOCK_SIZE : Nat := 16

/-- The reader's fixed `RndA` constant of the authentication routines. -/
def authRndA : List Nat :=
  [0x01, 0x02, 0x03, 0x04, 0x05, 0x06, 0x07, 0x08,
   0x09, 0x10, 0x11, 0x12, 0x13, 0x14, 0x15, 0x16]

/-- External AES-layer primitives used by `DesfireAuthenticateEV2`,
passed as pure functions (the cipher is out of scope per the spec).
`aesDecode`/`aesEncode` take the IV and key; the `Ok` flags model their
(key-schedule) failure paths.  `genSessionKeyEV2` is
`DesfireGenSessionKeyEV2(key, RndA, RndB, enc?)`. -/
structure Ev2Crypto where
  aesDecodeOk : Bool
  aesEncodeOk : Bool
  aesDecode : List Nat → List Nat → List Nat → List Nat
  aesEncode : List Nat → List Nat → List Nat → List Nat
  genSessionKeyEV2 : List Nat → List Nat → List Nat → Bool → List Nat

/-- The context produced by a successful EV2 authentication: TI and
command counter installed on first auth, IV cleared, both session keys
derived (from the by-now rotated `RndA`), channel switched. -/
def ev2FinalCtx (P : Ev2Crypto) (dctx2 : DesfireContext)
    (secureChannel : DesfireSecureChannel) (firstauth : Bool)
    (key RndB dataDec : List Nat) : DesfireContext :=
  let dctx3 := if firstauth then
      { dctx2 with cmdCntr := 0, TI := dataDec.take 4 }
    else dctx2
  let dctx4 := DesfireClearIV dctx3
  { dctx4 with
    sessionKeyEnc := storeBytes dctx4.sessionKeyEnc 0
      ((P.genSessionKeyEV2 key (rol authRndA) RndB true).take 16)
    sessionKeyMAC := storeBytes dctx4.sessionKeyMAC 0
      ((P.genSessionKeyEV2 key (rol authRndA) RndB false).take 16)
    secureChannel := secureChannel }

/-- The second half of `DesfireAuthenticateEV2`, from the second
exchange (`0xAF` continuation carrying `E(RndA || RndB')`) to the end:
response checks (errors 7–9), decryption (error 10), `RndA'`
verification (error 11), and on success the TI/counter update (first
auth only), IV clear, session-key derivation and channel switch.  By
this point the C has rotated its `RndA` buffer in place, so the
session-key derivation receives the rotated `RndA`. -/
def desfireAuthEV2Part2 (P : Ev2Crypto) (dctx1 : DesfireContext)
    (secureChannel : DesfireSecureChannel) (firstauth : Bool)
    (key RndB : List Nat) (sent2 : List (Nat × List Nat)) :
    List XchgReply → Int × DesfireContext × List (Nat × List Nat)
  | [] => (7, dctx1, sent2)
  | r2 :: _ =>
    let dctx2 := applyXchg dctx1 r2
    if r2.res ≠ PM3_SUCCESS then (7, dctx2, sent2)
    else if r2.data.length = 0 then (8, dctx2, sent2)
    else if r2.respcode ≠ MFDES_S_OPERATION_OK then (9, dctx2, sent2)
    else if ¬ P.aesDecodeOk then (10, dctx2, sent2)
    else
      let dataDec := padTake (P.aesDecode (zeros 16) key r2.data) 32
      let rndARol := rol authRndA
      let recRndA := (if firstauth then dataDec.drop 4 else dataDec).take 16
      if rndARol ≠ recRndA then (11, dctx2, sent2)
      else (PM3_SUCCESS, ev2FinalCtx P dctx2 secureChannel firstauth key RndB dataDec, sent2)

/-- `DesfireAuthenticateEV2`: the EV2 first/non-first authentication.
Returns the auth result (0 success, 1–11 the step that failed), the
updated context, and the transcript of `(command, payload)` pairs sent.
The exchange outcomes come from the oracle `replies` (an exhausted oracle
is a transport error).  The local IV stays zero for all three AES
operations.  On failure no context field is written beyond the
exchanges' own IV/counter effects — in particular the secure channel,
session keys and TI keep their prior values. -/
def DesfireAuthenticateEV2 (P : Ev2Crypto) (dctx : DesfireContext)
    (secureChannel : DesfireSecureChannel) (firstauth : Bool)
    (replies : List XchgReply) : Int × DesfireContext × List (Nat × List Nat) :=
  let subcommand := if firstauth then MFDES_AUTHENTICATE_EV2F else MFDES_AUTHENTICATE_EV2NF
  let key := dctx.key
  let cdata := [dctx.keyNum % 256, 0x00]
  let payload1 := if firstauth then cdata else cdata.take 1
  let sent1 := [(subcommand, payload1)]
  match replies with
  | [] => (1, dctx, sent1)
  | r1 :: rest1 =>
    let dctx1 := applyXchg dctx r1
    if r1.res ≠ PM3_SUCCESS then (1, dctx1, sent1)
    else if r1.data.length = 0 then (2, dctx1, sent1)
    else if r1.respcode ≠ MFDES_ADDITIONAL_FRAME then (3, dctx1, sent1)
    else if r1.data.length ≠ CRYPTO_AES_BLOCK_SIZE then (4, dctx1, sent1)
    else if ¬ P.aesDecodeOk then (5, dctx1, sent1)
    else
      let encRndB := r1.data.take CRYPTO_AES_BLOCK_SIZE
      let RndB := P.aesDecode (zeros 16) key encRndB
      let rotRndB := rol RndB
      let tmp := authRndA ++ rotRndB
      if ¬ P.aesEncodeOk then (6, dctx1, sent1)
      else
        let both := P.aesEncode (zeros 16) key tmp
        desfireAuthEV2Part2 P dctx1 secureChannel firstauth key RndB
          (sent1 ++ [(MFDES_ADDITIONAL_FRAME, both)]) rest1

/-- `desfireAuthEV2Part2` never alters the transcript it is given. -/
theorem authEV2Part2_transcript (P : Ev2Crypto) (dctx1 : DesfireContext)
    (sc : DesfireSecureChannel) (fa : Bool) (key RndB : List Nat)
    (sent2 : List (Nat × List Nat)) (rs : List XchgReply) :
    (desfireAuthEV2Part2 P dctx1 sc fa key RndB sent2 rs).2.2 = sent2 := by
  match rs with
  | [] => rfl
  | r2 :: rest =>
    show (desfireAuthEV2Part2 P dctx1 sc fa key RndB sent2 (r2 :: rest)).2.2 = sent2
    rw [desfireAuthEV2Part2]
    simp only []
    split_ifs <;> rfl

/-- A successful second authentication phase means the decrypted final
response carried `RndA'` (at offset 4 after the TI on first auth, at
offset 0 otherwise), and the result is the success context. -/
theorem authEV2Part2_success_eq (P : Ev2Crypto) (dctx1 : DesfireContext)
    (sc : DesfireSecureChannel) (fa : Bool) (key RndB : List Nat)
    (sent2 : List (Nat × List Nat)) (r2 : XchgReply) (rest : List XchgReply)
    (h : (desfireAuthEV2Part2 P dctx1 sc fa key RndB sent2 (r2 :: rest)).1 =
      PM3_SUCCESS) :
    rol authRndA =
      ((if fa then (padTake (P.aesDecode (zeros 16) key r2.data) 32).drop 4
        else padTake (P.aesDecode (zeros 16) key r2.data) 32).take 16) ∧
    desfireAuthEV2Part2 P dctx1 sc fa key RndB sent2 (r2 :: rest) =
      (PM3_SUCCESS,
       ev2FinalCtx P (applyXchg dctx1 r2) sc fa key RndB
         (padTake (P.aesDecode (zeros 16) key r2.data) 32),
       sent2) := by
  rw [desfireAuthEV2Part2] at h ⊢
  simp only [] at h ⊢
  split_ifs at h ⊢ <;>
    first
    | (rename_i hrnd
       exact ⟨not_ne_iff.mp hrnd, rfl⟩)
    | (exfalso
       first
       | exact absurd (show (7 : Int) = PM3_SUCCESS from h) (by decide)
       | exact absurd (show (8 : Int) = PM3_SUCCESS from h) (by decide)
       | exact absurd (show (9 : Int) = PM3_SUCCESS from h) (by decide)
       | exact absurd (show (10 : Int) = PM3_SUCCESS from h) (by decide)
       | exact absurd (show (11 : Int) = PM3_SUCCESS from h) (by decide))

/-- A failed second authentication phase leaves the secure channel,
session keys and TI exactly as they were. -/
theorem authEV2Part2_fail_ctx (P : Ev2Crypto) (dctx1 : DesfireContext)
    (sc : DesfireSecureChannel) (fa : Bool) (key RndB : List Nat)
    (sent2 : List (Nat × List Nat)) (rs : List XchgReply)
    (h : (desfireAuthEV2Part2 P dctx1 sc fa key RndB sent2 rs).1 ≠ PM3_SUCCESS) :
    (desfireAuthEV2Part2 P dctx1 sc fa key RndB sent2 rs).2.1.secureChannel =
      dctx1.secureChannel ∧
    (desfireAuthEV2Part2 P dctx1 sc fa key RndB sent2 rs).2.1.sessionKeyEnc =
      dctx1.sessionKeyEnc ∧
    (desfireAuthEV2Part2 P dctx1 sc fa key RndB sent2 rs).2.1.sessionKeyMAC =
      dctx1.sessionKeyMAC ∧
    (desfireAuthEV2Part2 P dctx1 sc fa key RndB sent2 rs).2.1.TI = dctx1.TI := by
  match rs with
  | [] => exact ⟨rfl, rfl, rfl, rfl⟩
  | r2 :: rest =>
    rw [desfireAuthEV2Part2] at h ⊢
    simp only [] at h ⊢
    split_ifs at h ⊢ <;>
      first
      | exact ⟨rfl, rfl, rfl, rfl⟩
      | exact absurd rfl h

/-- The EV2 authentication always opens with the sub-command and
key-number payload of its mode: `0x71` with `{keyNo, 0x00}` on first
auth, `0x77` with the bare key number otherwise. -/
theorem authEV2_transcript_head (P : Ev2Crypto) (dctx : DesfireContext)
    (sc : DesfireSecureChannel) (fa : Bool) (replies : List XchgReply) :
    (DesfireAuthenticateEV2 P dctx sc fa replies).2.2.head? =
      some (if fa then MFDES_AUTHENTICATE_EV2F else MFDES_AUTHENTICATE_EV2NF,
            if fa then [dctx.keyNum % 256, 0x00] else [dctx.keyNum % 256]) := by
  cases fa <;>
    (match replies with
     | [] => rfl
     | r1 :: rest1 =>
       rw [DesfireAuthenticateEV2]
       simp only []
       split_ifs <;>
         first
         | rfl
         | (rw [authEV2Part2_transcript]
            rfl))

/-- On success the EV2 authentication ran all six first-phase checks and
handed over to the second phase with the decrypted `RndB`. -/
theorem authEV2_success_to_part2 (P : Ev2Crypto) (dctx : DesfireContext)
    (sc : DesfireSecureChannel) (fa : Bool) (r1 : XchgReply)
    (rest1 : List XchgReply)
    (h : (DesfireAuthenticateEV2 P dctx sc fa (r1 :: rest1)).1 = PM3_SUCCESS) :
    DesfireAuthenticateEV2 P dctx sc fa (r1 :: rest1) =
      desfireAuthEV2Part2 P (applyXchg dctx r1) sc fa dctx.key
        (P.aesDecode (zeros 16) dctx.key (r1.data.take CRYPTO_AES_BLOCK_SIZE))
        ([(if fa then MFDES_AUTHENTICATE_EV2F else MFDES_AUTHENTICATE_EV2NF,
           if fa then [dctx.keyNum % 256, 0x00] else [dctx.keyNum % 256, 0x00].take 1)] ++
         [(MFDES_ADDITIONAL_FRAME,
           P.aesEncode (zeros 16) dctx.key
             (authRndA ++ rol (P.aesDecode (zeros 16) dctx.key
               (r1.data.take CRYPTO_AES_BLOCK_SIZE))))])
        rest1 := by
  rw [DesfireAuthenticateEV2] at h ⊢
  simp only [] at h ⊢
  split_ifs at h ⊢ <;>
    first
    | rfl
    | (exfalso
       first
       | exact absurd (show (1 : Int) = PM3_SUCCESS from h) (by decide)
       | exact absurd (show (2 : Int) = PM3_SUCCESS from h) (by decide)
       | exact absurd (show (3 : Int) = PM3_SUCCESS from h) (by decide)
       | exact absurd (show (4 : Int) = PM3_SUCCESS from h) (by decide)
       | exact absurd (show (5 : Int) = PM3_SUCCESS from h) (by decide)
       | exact absurd (show (6 : Int) = PM3_SUCCESS from h) (by decide))

/-- A failed EV2 authentication (first or non-first) leaves the secure
channel, session keys and TI exactly as they were before the call. -/
theorem authEV2_fail_ctx (P : Ev2Crypto) (dctx : DesfireContext)
    (sc : DesfireSecureChannel) (fa : Bool) (replies : List XchgReply)
    (h : (DesfireAuthenticateEV2 P dctx sc fa replies).1 ≠ PM3_SUCCESS) :
    (DesfireAuthenticateEV2 P dctx sc fa replies).2.1.secureChannel =
      dctx.secureChannel ∧
    (DesfireAuthenticateEV2 P dctx sc fa replies).2.1.sessionKeyEnc =
      dctx.sessionKeyEnc ∧
    (DesfireAuthenticateEV2 P dctx sc fa replies).2.1.sessionKeyMAC =
      dctx.sessionKeyMAC ∧
    (DesfireAuthenticateEV2 P dctx sc fa replies).2.1.TI = dctx.TI := by
  match replies with
  | [] => exact ⟨rfl, rfl, rfl, rfl⟩
  | r1 :: rest1 =>
    rw [DesfireAuthenticateEV2] at h ⊢
    simp only [] at h ⊢
    split_ifs at h ⊢ <;>
      first
      | exact ⟨rfl, rfl, rfl, rfl⟩
      | exact authEV2Part2_fail_ctx _ _ _ _ _ _ _ _ h

/-- C6: `DesfireAuthenticateEV2` with `firstauth=true` sends sub-command
`0x71` with the two-byte payload `{keyNo, 0x00}`, decrypts the final
response as `TI(4) || RndA'(16) || trailing bytes`, stores TI in the
context and resets the command counter to 0; with `firstauth=false` it
sends sub-command `0x77` with only the one-byte key number, takes `RndA'`
from offset 0 of the decrypted response, and leaves TI and the command
counter unchanged (the counter keeps the value the exchange layer left
in the context; the auth routine itself never writes it on the
non-first path). -/
theorem C6_authEV2_first_vs_nonfirst (P : Ev2Crypto) (dctx : DesfireContext)
    (sc : DesfireSecureChannel) (replies : List XchgReply) (r1 r2 : XchgReply)
    (rest : List XchgReply) :
    ((DesfireAuthenticateEV2 P dctx sc true replies).2.2.head? =
      some (MFDES_AUTHENTICATE_EV2F, [dctx.keyNum % 256, 0x00])) ∧
    ((DesfireAuthenticateEV2 P dctx sc false replies).2.2.head? =
      some (MFDES_AUTHENTICATE_EV2NF, [dctx.keyNum % 256])) ∧
    ((DesfireAuthenticateEV2 P dctx sc true (r1 :: r2 :: rest)).1 = PM3_SUCCESS →
      (DesfireAuthenticateEV2 P dctx sc true (r1 :: r2 :: rest)).2.1.cmdCntr = 0 ∧
      (DesfireAuthenticateEV2 P dctx sc true (r1 :: r2 :: rest)).2.1.TI =
        (padTake (P.aesDecode (zeros 16) dctx.key r2.data) 32).take 4 ∧
      rol authRndA =
        ((padTake (P.aesDecode (zeros 16) dctx.key r2.data) 32).drop 4).take 16) ∧
    ((DesfireAuthenticateEV2 P dctx sc false (r1 :: r2 :: rest)).1 = PM3_SUCCESS →
      (DesfireAuthenticateEV2 P dctx sc false (r1 :: r2 :: rest)).2.1.TI = dctx.TI ∧
      (DesfireAuthenticateEV2 P dctx sc false (r1 :: r2 :: rest)).2.1.cmdCntr =
        r2.cntrAfter ∧
      rol authRndA =
        (padTake (P.aesDecode (zeros 16) dctx.key r2.data) 32).take 16) := by
  refine ⟨authEV2_transcript_head P dctx sc true replies, ?_, ?_, ?_⟩
  · exact authEV2_transcript_head P dctx sc false replies
  · intro h
    have heq := authEV2_success_to_part2 P dctx sc true r1 (r2 :: rest) h
    rw [heq] at h ⊢
    obtain ⟨hr, he⟩ := authEV2Part2_success_eq _ _ _ _ _ _ _ _ _ h
    rw [he]
    refine ⟨?_, ?_, ?_⟩
    · simp [ev2FinalCtx, DesfireClearIV]
    · simp [ev2FinalCtx, DesfireClearIV]
    · simpa using hr
  · intro h
    have heq := authEV2_success_to_part2 P dctx sc false r1 (r2 :: rest) h
    rw [heq] at h ⊢
    obtain ⟨hr, he⟩ := authEV2Part2_success_eq _ _ _ _ _ _ _ _ _ h
    rw [he]
    refine ⟨?_, ?_, ?_⟩
    · simp [ev2FinalCtx, DesfireClearIV, applyXchg]
    · simp [ev2FinalCtx, DesfireClearIV, applyXchg]
    · simpa using hr

/-- A concrete `Ev2Crypto` for witnesses: identity ciphers and a
constant session-key generator. -/
def idEv2Crypto : Ev2Crypto :=
  ⟨true, true, fun _ _ ct => ct, fun _ _ pt => pt, fun _ _ _ _ => zeros 16⟩

/-- A card reply carrying `E(RndB)` (16 arbitrary bytes) with the
`ADDITIONAL_FRAME` status, under the identity cipher. -/
def ev2Reply1 : XchgReply := ⟨PM3_SUCCESS, MFDES_ADDITIONAL_FRAME, zeros 16, zeros 24, 5⟩

/-- The final first-auth reply: `OPERATION_OK` with the 32-byte structure
`TI(4) || RndA'(16) || suites(12)` (identity cipher, so the plaintext is
sent literally; `RndA'` is the left-rotation of the fixed `RndA`). -/
def ev2Reply2First : XchgReply :=
  ⟨PM3_SUCCESS, MFDES_S_OPERATION_OK,
    [0xAA, 0xBB, 0xCC, 0xDD] ++ rol authRndA ++ zeros 12, zeros 24, 5⟩

/-- Witness for C6: the concrete first-auth run succeeds, resets the
counter and stores the TI bytes `AA BB CC DD`. -/
theorem C6_authEV2_first_vs_nonfirst_witness :
    (DesfireAuthenticateEV2 idEv2Crypto
      ⟨3, T_AES, zeros 16, 0, [], DACNone, DCCNative, DCMPlain,
        zeros 24, zeros 24, zeros 24, zeros 4, 9, true⟩
      DACEV2 true [ev2Reply1, ev2Reply2First]).2.1.cmdCntr = 0 :=
  ((C6_authEV2_first_vs_nonfirst idEv2Crypto
      ⟨3, T_AES, zeros 16, 0, [], DACNone, DCCNative, DCMPlain,
        zeros 24, zeros 24, zeros 24, zeros 4, 9, true⟩
      DACEV2 [] ev2Reply1 ev2Reply2First []).2.2.1 (by decide)).1

/-! ### Legacy / EV1 authentication (`DesfireAuthenticateEV1`) -/

/-- KDF selector constants (`desfirecore.h` companions, not in the
sources; values modelled from the spec's enumeration). -/
def MFDES_KDF_ALGO_NONE : Nat := 0
def MFDES_KDF_ALGO_AN10922 : Nat := 1
def MFDES_KDF_ALGO_GALLAGHER : Nat := 2

/-- External cipher primitives used by `DesfireAuthenticateEV1`, passed
as pure functions (out of scope per the spec).  CBC primitives return
the updated IV alongside their output; the `Ok` flags model the
(key-schedule) failure paths of `mbedtls_aes_setkey_dec/enc`.
`sessionKeyNew` is `Desfire_session_key_new(RndA, RndB, key)`. -/
structure Ev1Crypto where
  desDecrypt : List Nat → List Nat → List Nat
  desDecryptCbc : List Nat → List Nat → List Nat → List Nat × List Nat
  desEncryptCbc : List Nat → List Nat → List Nat → List Nat × List Nat
  des3Decrypt : List Nat → List Nat → List Nat
  tdesNxpReceive : List Nat → List Nat → List Nat → Nat → List Nat × List Nat
  tdesNxpSend : List Nat → List Nat → List Nat → Nat → List Nat × List Nat
  aesSetkeyDecOk : Bool
  aesSetkeyEncOk : Bool
  aesCbcDec : List Nat → List Nat → List Nat → List Nat × List Nat
  aesCbcEnc : List Nat → List Nat → List Nat → List Nat × List Nat
  sessionKeyNew : List Nat → List Nat → List Nat → List Nat
  kdfAn10922 : List Nat → List Nat → List Nat

/-- Part 3 of `DesfireAuthenticateEV1`, step "decrypt `E(RndB)`": the
cipher branch per key type (returns `(RndB, new IV)`).  With key type DES
and a channel that is neither D40 nor EV1 the C leaves the
zero-initialised `RndB` untouched.  The AES key-schedule failure (error
5) is tested separately, as in the C. -/
def ev1DecryptRndB (P : Ev1Crypto) (kt : DesfireCryptoAlgorythm)
    (sc : DesfireSecureChannel) (keyData iv0 encRndB : List Nat) :
    List Nat × List Nat :=
  match kt with
  | T_AES => P.aesCbcDec keyData iv0 encRndB
  | T_DES =>
      if sc = DACd40 then (P.desDecrypt encRndB keyData, iv0)
      else if sc = DACEV1 then P.desDecryptCbc encRndB keyData iv0
      else (zeros 16, iv0)
  | T_3DES => P.tdesNxpReceive encRndB keyData iv0 2
  | T_3K3DES => P.tdesNxpReceive encRndB keyData iv0 3

/-- Step "encrypt our response": builds `E(RndA || RndB')` per channel
and key type.  Under D40 the DES/3DES "encryption" is per-block DES
*decrypt* with external XOR chaining; key types without a branch leave
the zero-initialised `both` buffer untouched.  The AES key-schedule
failure (error 6) is tested separately, as in the C. -/
def ev1EncryptBoth (P : Ev1Crypto) (kt : DesfireCryptoAlgorythm)
    (sc : DesfireSecureChannel) (keyData iv1 rotRndB : List Nat) :
    List Nat × List Nat :=
  if sc = DACd40 then
    match kt with
    | T_DES =>
        let encA := P.desDecrypt (authRndA.take 8) keyData
        let encB := P.desDecrypt (binXor rotRndB encA) keyData
        (encA ++ encB, iv1)
    | T_3DES =>
        let encA := P.des3Decrypt (authRndA.take 8) keyData
        let encB := P.des3Decrypt (binXor rotRndB encA) keyData
        (encA ++ encB, iv1)
    | _ => (zeros 32, iv1)
  else if sc = DACEV1 then
    match kt with
    | T_DES => P.desEncryptCbc (authRndA.take 8 ++ rotRndB) keyData iv1
    | T_3DES => P.tdesNxpSend (authRndA.take 8 ++ rotRndB) keyData iv1 2
    | T_3K3DES => P.tdesNxpSend (authRndA ++ rotRndB) keyData iv1 3
    | T_AES => P.aesCbcEnc keyData iv1 (authRndA ++ rotRndB)
  else (zeros 32, iv1)

/-- Part 4 decrypt of `E(RndA')`: cipher branch per key type and channel.
DES with a channel that is neither D40 nor EV1 leaves the buffer as
received.  The AES key-schedule failure (error 10) is tested separately,
as in the C. -/
def ev1DecryptRndA (P : Ev1Crypto) (kt : DesfireCryptoAlgorythm)
    (sc : DesfireSecureChannel) (keyData iv2 encRndA0 : List Nat) : List Nat :=
  match kt with
  | T_DES =>
      if sc = DACd40 then P.desDecrypt encRndA0 keyData
      else if sc = DACEV1 then (P.desDecryptCbc encRndA0 keyData iv2).1
      else encRndA0
  | T_3DES =>
      if sc = DACd40 then P.des3Decrypt encRndA0 keyData
      else (P.tdesNxpReceive encRndA0 keyData iv2 2).1
  | T_3K3DES => (P.tdesNxpReceive encRndA0 keyData iv2 3).1
  | T_AES => (P.aesCbcDec keyData iv2 encRndA0).1

/-- The second half of `DesfireAuthenticateEV1`, from the second exchange
on: response checks (errors 7–9), the provisional session-key write
(which in the C happens BEFORE the `RndA'` decryption and check), the
AES key-schedule failure (error 10), the `RndA'` verification (error
11), the single-DES session-key half duplication, and the final IV
clear, channel switch and MAC-key copy. -/
def desfireAuthEV1Part2 (P : Ev1Crypto) (dctx1 : DesfireContext)
    (secureChannel : DesfireSecureChannel) (keyData RndB iv2 : List Nat)
    (rndlen : Nat) : List XchgReply → Int × DesfireContext
  | [] => (7, dctx1)
  | r2 :: _ =>
    let dctx2 := applyXchg dctx1 r2
    if r2.res ≠ PM3_SUCCESS then (7, dctx2)
    else if r2.data.length = 0 then (8, dctx2)
    else if r2.respcode ≠ MFDES_S_OPERATION_OK then (9, dctx2)
    else
      let keylen := desfire_get_key_length dctx2.keyType
      let encRndA0 := padTake r2.data rndlen
      let sesskey := P.sessionKeyNew authRndA RndB keyData
      let dctx3 := { dctx2 with
        sessionKeyEnc := storeBytes dctx2.sessionKeyEnc 0 (sesskey.take keylen) }
      if dctx3.keyType = T_AES ∧ ¬ P.aesSetkeyDecOk then (10, dctx3)
      else
        let decA := ev1DecryptRndA P dctx3.keyType secureChannel keyData iv2 encRndA0
        if rol (authRndA.take rndlen) ≠ padTake decA rndlen then (11, dctx3)
        else
          let dctx4 := if dctx3.keyType = T_3DES ∧
              keyData.take 8 = (keyData.drop 8).take 8 then
              { dctx3 with sessionKeyEnc :=
                  dctx3.sessionKeyEnc.take 8 ++ dctx3.sessionKeyEnc.take 8 ++
                  dctx3.sessionKeyEnc.drop 16 }
            else dctx3
          (PM3_SUCCESS, { dctx4 with
            IV := zeros DESFIRE_MAX_KEY_SIZE
            secureChannel := secureChannel
            sessionKeyMAC := storeBytes dctx4.sessionKeyMAC 0
              (dctx4.sessionKeyEnc.take keylen) })

/-- `DesfireAuthenticateEV1`: the legacy (D40) and EV1 authentication.
Clears the session at entry; a `None` channel returns success
immediately.  The key is (optionally) run through the AN10922 KDF — the
Gallagher variant forces an 11-byte KDF input.  The exchange outcomes
come from the oracle `replies`.  Result codes 1–11 name the failing step
as in the C. -/
def DesfireAuthenticateEV1 (P : Ev1Crypto) (dctx0 : DesfireContext)
    (secureChannel : DesfireSecureChannel) (replies : List XchgReply) :
    Int × DesfireContext :=
  let dctx := DesfireClearSession dctx0
  if secureChannel = DACNone then (PM3_SUCCESS, dctx)
  else
    let keylen := desfire_get_key_length dctx.keyType
    let keyData0 := padTake (dctx.key.take keylen) 24
    let dctxK := if dctx.kdfAlgo = MFDES_KDF_ALGO_GALLAGHER then
        { dctx with kdfInput := padTake dctx.kdfInput 11 }
      else dctx
    let keyData := if dctx.kdfAlgo = MFDES_KDF_ALGO_AN10922 then
        P.kdfAn10922 keyData0 dctx.kdfInput
      else if dctx.kdfAlgo = MFDES_KDF_ALGO_GALLAGHER then
        P.kdfAn10922 keyData0 (padTake dctx.kdfInput 11)
      else keyData0
    match replies with
    | [] => (1, dctxK)
    | r1 :: rest1 =>
      let dctx1 := applyXchg dctxK r1
      if r1.res ≠ PM3_SUCCESS then (1, dctx1)
      else if r1.data.length = 0 then (2, dctx1)
      else if r1.respcode ≠ MFDES_ADDITIONAL_FRAME then (3, dctx1)
      else
        let expectedlen := if dctx1.keyType = T_AES ∨ dctx1.keyType = T_3K3DES
          then 16 else 8
        if r1.data.length ≠ expectedlen then (4, dctx1)
        else if dctx1.keyType = T_AES ∧ ¬ P.aesSetkeyDecOk then (5, dctx1)
        else
          let rndlen := r1.data.length
          let encRndB := r1.data.take rndlen
          let rb := ev1DecryptRndB P dctx1.keyType secureChannel keyData (zeros 16) encRndB
          let RndB := padTake (rb.1.take rndlen) 16
          let rotRndB := rol (RndB.take rndlen)
          if secureChannel = DACEV1 ∧ dctx1.keyType = T_AES ∧ ¬ P.aesSetkeyEncOk then
            (6, dctx1)
          else
            let eb := ev1EncryptBoth P dctx1.keyType secureChannel keyData rb.2 rotRndB
            desfireAuthEV1Part2 P dctx1 secureChannel keyData RndB eb.2 rndlen rest1

/-- A failed second EV1 phase preserves the channel and MAC key it was
given, and the ENC key too except at exits 10 and 11, which happen after
the provisional session key was already stored. -/
theorem authEV1Part2_fail_ctx (P : Ev1Crypto) (dctx1 : DesfireContext)
    (sc : DesfireSecureChannel) (keyData RndB iv2 : List Nat) (rndlen : Nat)
    (rs : List XchgReply)
    (h : (desfireAuthEV1Part2 P dctx1 sc keyData RndB iv2 rndlen rs).1 ≠ PM3_SUCCESS) :
    (desfireAuthEV1Part2 P dctx1 sc keyData RndB iv2 rndlen rs).2.secureChannel =
      dctx1.secureChannel ∧
    (desfireAuthEV1Part2 P dctx1 sc keyData RndB iv2 rndlen rs).2.sessionKeyMAC =
      dctx1.sessionKeyMAC ∧
    ((desfireAuthEV1Part2 P dctx1 sc keyData RndB iv2 rndlen rs).1 ≠ 10 →
     (desfireAuthEV1Part2 P dctx1 sc keyData RndB iv2 rndlen rs).1 ≠ 11 →
      (desfireAuthEV1Part2 P dctx1 sc keyData RndB iv2 rndlen rs).2.sessionKeyEnc =
        dctx1.sessionKeyEnc) := by
  match rs with
  | [] => exact ⟨rfl, rfl, fun _ _ => rfl⟩
  | r2 :: rest =>
    rw [desfireAuthEV1Part2] at h ⊢
    simp only [] at h ⊢
    split_ifs at h ⊢ <;>
      first
      | exact ⟨rfl, rfl, fun _ _ => rfl⟩
      | exact absurd rfl h
      | exact ⟨rfl, rfl, fun h10 _ => absurd rfl h10⟩
      | exact ⟨rfl, rfl, fun _ h11 => absurd rfl h11⟩

set_option maxHeartbeats 2000000 in
/-- A failed EV1/D40 authentication run ends with the channel `None` and
the MAC session key zeroed (the session was cleared at entry), and with
the ENC session key zeroed except at exits 10/11, which occur after the
provisional key derivation. -/
theorem authEV1_fail_ctx (P : Ev1Crypto) (dctx0 : DesfireContext)
    (sc : DesfireSecureChannel) (replies : List XchgReply)
    (h : (DesfireAuthenticateEV1 P dctx0 sc replies).1 ≠ PM3_SUCCESS) :
    (DesfireAuthenticateEV1 P dctx0 sc replies).2.secureChannel = DACNone ∧
    (DesfireAuthenticateEV1 P dctx0 sc replies).2.sessionKeyMAC =
      zeros DESFIRE_MAX_KEY_SIZE ∧
    ((DesfireAuthenticateEV1 P dctx0 sc replies).1 ≠ 10 →
     (DesfireAuthenticateEV1 P dctx0 sc replies).1 ≠ 11 →
      (DesfireAuthenticateEV1 P dctx0 sc replies).2.sessionKeyEnc =
        zeros DESFIRE_MAX_KEY_SIZE) := by
  suffices hgen : ∀ o : Int × DesfireContext,
      DesfireAuthenticateEV1 P dctx0 sc replies = o → o.1 ≠ PM3_SUCCESS →
      o.2.secureChannel = DACNone ∧
      o.2.sessionKeyMAC = zeros DESFIRE_MAX_KEY_SIZE ∧
      (o.1 ≠ 10 → o.1 ≠ 11 →
        o.2.sessionKeyEnc = zeros DESFIRE_MAX_KEY_SIZE) by
    exact hgen _ rfl h
  intro o ho hne
  match replies with
  | [] =>
    rw [DesfireAuthenticateEV1] at ho
    simp only [] at ho
    split_ifs at ho <;> subst ho <;>
      exact ⟨rfl, rfl, fun _ _ => rfl⟩
  | r1 :: rest1 =>
    rw [DesfireAuthenticateEV1] at ho
    simp only [] at ho
    split_ifs at ho <;> subst ho <;>
      first
      | exact ⟨rfl, rfl, fun _ _ => rfl⟩
      | exact absurd rfl hne
      | exact authEV1Part2_fail_ctx _ _ _ _ _ _ _ _ hne

/-- An authenticated EV2 context with non-zero session keys, used to
exhibit what a failed re-authentication leaves behind. -/
def ctxAuthedEV2 : DesfireContext :=
  ⟨3, T_AES, zeros 16, 0, [], DACEV2, DCCNative, DCMPlain,
    List.replicate 24 7, List.replicate 24 9, zeros 24, [1, 2, 3, 4], 42, true⟩

/-- C1 counterexample: a failed EV2 non-first authentication (the card
answers `OPERATION_OK` instead of `ADDITIONAL_FRAME`, error 3) does NOT
end unauthenticated: the context keeps its `DACEV2` secure channel and
its previous (non-zero) session keys. -/
theorem C1_ev2_failure_keeps_channel :
    (DesfireAuthenticateEV2 idEv2Crypto ctxAuthedEV2 DACEV2 false
      [⟨PM3_SUCCESS, MFDES_S_OPERATION_OK, [1], zeros 24, 42⟩]).1 ≠ PM3_SUCCESS ∧
    (DesfireAuthenticateEV2 idEv2Crypto ctxAuthedEV2 DACEV2 false
      [⟨PM3_SUCCESS, MFDES_S_OPERATION_OK, [1], zeros 24, 42⟩]).2.1.secureChannel =
      DACEV2 ∧
    (DesfireAuthenticateEV2 idEv2Crypto ctxAuthedEV2 DACEV2 false
      [⟨PM3_SUCCESS, MFDES_S_OPERATION_OK, [1], zeros 24, 42⟩]).2.1.sessionKeyEnc ≠
      zeros DESFIRE_MAX_KEY_SIZE := by
  refine ⟨by decide, by decide, by decide⟩

/-- C1 (amended): failed authentication runs.  The EV1/D40 path clears
the session at entry, so every failure exit leaves the secure channel
`None` and the MAC session key zeroed, and the ENC session key zeroed
except at exits 10 (AES key-schedule) and 11 (RndA' verification), which
happen after the provisional session key was already stored in the
context.  The EV2 paths (first and non-first auth) never clear the
session on failure: every failure exit leaves the secure channel, both
session keys and the TI exactly as they were before the call — in
particular a failed non-first auth leaves the previous authenticated
channel in place. -/
theorem C1_auth_failure_state (P1 : Ev1Crypto) (P2 : Ev2Crypto)
    (dctx dctxB : DesfireContext) (sc scB : DesfireSecureChannel) (fa : Bool)
    (replies repliesB : List XchgReply) :
    ((DesfireAuthenticateEV1 P1 dctx sc replies).1 ≠ PM3_SUCCESS →
      (DesfireAuthenticateEV1 P1 dctx sc replies).2.secureChannel = DACNone ∧
      (DesfireAuthenticateEV1 P1 dctx sc replies).2.sessionKeyMAC =
        zeros DESFIRE_MAX_KEY_SIZE ∧
      ((DesfireAuthenticateEV1 P1 dctx sc replies).1 ≠ 10 →
       (DesfireAuthenticateEV1 P1 dctx sc replies).1 ≠ 11 →
        (DesfireAuthenticateEV1 P1 dctx sc replies).2.sessionKeyEnc =
          zeros DESFIRE_MAX_KEY_SIZE)) ∧
    ((DesfireAuthenticateEV2 P2 dctxB scB fa repliesB).1 ≠ PM3_SUCCESS →
      (DesfireAuthenticateEV2 P2 dctxB scB fa repliesB).2.1.secureChannel =
        dctxB.secureChannel ∧
      (DesfireAuthenticateEV2 P2 dctxB scB fa repliesB).2.1.sessionKeyEnc =
        dctxB.sessionKeyEnc ∧
      (DesfireAuthenticateEV2 P2 dctxB scB fa repliesB).2.1.sessionKeyMAC =
        dctxB.sessionKeyMAC ∧
      (DesfireAuthenticateEV2 P2 dctxB scB fa repliesB).2.1.TI = dctxB.TI) :=
  ⟨fun h => authEV1_fail_ctx P1 dctx sc replies h,
   fun h => authEV2_fail_ctx P2 dctxB scB fa repliesB h⟩

/-- A concrete `Ev1Crypto` for witnesses: identity-like ciphers. -/
def idEv1Crypto : Ev1Crypto :=
  ⟨fun xs _ => xs, fun xs _ iv => (xs, iv), fun xs _ iv => (xs, iv),
   fun xs _ => xs, fun xs _ iv _ => (xs, iv), fun xs _ iv _ => (xs, iv),
   true, true, fun _ iv xs => (xs, iv), fun _ iv xs => (xs, iv),
   fun a _ _ => a, fun k _ => k⟩

/-- Witness for C1: a concrete EV1 run that fails at step 3 (the card
answers `OPERATION_OK` instead of `ADDITIONAL_FRAME`) from a previously
authenticated context ends with the channel `None`. -/
theorem C1_auth_failure_state_witness :
    (DesfireAuthenticateEV1 idEv1Crypto
      ⟨0, T_DES, zeros 8, 0, [], DACEV1, DCCNative, DCMPlain,
        List.replicate 24 7, List.replicate 24 9, zeros 24, zeros 4, 0, true⟩
      DACEV1
      [⟨PM3_SUCCESS, MFDES_S_OPERATION_OK, [1], zeros 24, 0⟩]).2.secureChannel =
      DACNone :=
  ((C1_auth_failure_state idEv1Crypto idEv2Crypto
      ⟨0, T_DES, zeros 8, 0, [], DACEV1, DCCNative, DCMPlain,
        List.replicate 24 7, List.replicate 24 9, zeros 24, zeros 4, 0, true⟩
      ctxAuthedEV2 DACEV1 DACEV2 false
      [⟨PM3_SUCCESS, MFDES_S_OPERATION_OK, [1], zeros 24, 0⟩]
      []).1 (by decide)).1

end Desfire
